import Mathlib

/-
  Verification development for the car-card-game server core.

  Shallow embedding of `shared/game-engine.ts` (the pure rules engine),
  the AI-spawn policy of `server/matchmakingManager.ts`, and the input
  guard of `src/game-manager.ts`.

  Modelling conventions:
  * JS numbers that the engine only adds/multiplies/compares are embedded
    as `ℚ` (metric values, turn time limit) or `ℤ` (timestamps, seeds);
    the one rounding operation, `Math.round`, is embedded exactly as
    `jsRound` (round half towards +∞).
  * `uuidv4()` and `Date.now()` are external nondeterminism: they are
    passed in as explicit parameters (`uuid : ℕ → String` consumed in
    call order, `now : ℤ`).
  * TS `throw` is the `.thrown` constructor of `EngRes` / `PlayOutcome`;
    a reads-property-of-`undefined` crash is also `.thrown`.
  * The global card catalogue `ALL_GAME_CARD_DEFINITIONS` is passed as a
    `db : List ICardDefinition` parameter.
  * JS objects used as string-keyed maps (`carCardsOnBoard`,
    `activeActionCardsOnBoard`, `pendingMetricModifiers`) are association
    lists; `mapGetD` returns `none` both for an absent key and for a
    `null` value (both are falsy in the JS conditions that read them),
    `mapSet` replaces in place or appends, like JS property assignment.
  * The TS engine deep-copies the input state and mutates the copy; the
    embedding is a pure function, which renders the same observable
    behaviour (the caller's state is never changed).
-/

-- ===== interfaces.ts =====

inductive MetricType where
  | speed | hp | accel | weight | year
deriving DecidableEq, Repr

def metricName : MetricType → String
  | .speed => "speed"
  | .hp => "hp"
  | .accel => "accel"
  | .weight => "weight"
  | .year => "year"

inductive GameStatus where
  | menu | playing | win | loss | tie | waiting_opponent
deriving DecidableEq, Repr

/-- Per-turn phases. `interfaces.ts` lists six values and does NOT include
`both_cards_on_board`; that extra value appears only in string comparisons in
the orchestrator (`game-manager.ts`) and in the repository's tests, so it is
included here as a constructor in order to be able to state claims about it.
The theorems below settle whether the engine ever produces it. -/
inductive PlayerActionPhase where
  | waiting_for_initial_play
  | must_discard
  | waiting_for_car_card_after_action
  | turn_ended
  | awaiting_opponent_play
  | round_resolved
  | both_cards_on_board
deriving DecidableEq, Repr

structure CardMetrics where
  speed : ℚ
  hp : ℚ
  accel : ℚ
  weight : ℚ
  year : ℚ
deriving DecidableEq, Repr

def CardMetrics.get (m : CardMetrics) : MetricType → ℚ
  | .speed => m.speed
  | .hp => m.hp
  | .accel => m.accel
  | .weight => m.weight
  | .year => m.year

def CardMetrics.set (m : CardMetrics) : MetricType → ℚ → CardMetrics
  | .speed, v => { m with speed := v }
  | .hp, v => { m with hp := v }
  | .accel, v => { m with accel := v }
  | .weight, v => { m with weight := v }
  | .year, v => { m with year := v }

inductive ActionEffectType where
  | time_mod | metric_mod_temp | metric_mod_perm | override_metric | drop_card | extra_turn
deriving DecidableEq, Repr

def effectTypeName : ActionEffectType → String
  | .time_mod => "time_mod"
  | .metric_mod_temp => "metric_mod_temp"
  | .metric_mod_perm => "metric_mod_perm"
  | .override_metric => "override_metric"
  | .drop_card => "drop_card"
  | .extra_turn => "extra_turn"

inductive EffectTarget where
  | self | opponent | game
deriving DecidableEq, Repr

inductive ModifierType where
  | percentage | absolute
deriving DecidableEq, Repr

/-- `IActionEffect` is the flat interface of `interfaces.ts`: every field
other than `type` and `target` is optional. -/
structure IActionEffect where
  type : ActionEffectType
  target : EffectTarget
  value : Option ℚ := none
  targetMetric : Option MetricType := none
  modifierType : Option ModifierType := none
  availableMetrics : Option CardMetrics := none
  newMetric : Option MetricType := none
deriving DecidableEq, Repr

inductive CardType where
  | car | action
deriving DecidableEq, Repr

structure ICardDefinition where
  id : String
  name : String
  type : CardType
  description : String
  imageUrl : Option String := none
  brandLogoUrl : Option String := none
  brand : Option String := none
  model : Option String := none
  carRank : Option String := none
  engineType : Option String := none
  metrics : Option CardMetrics := none
  actionEffect : Option IActionEffect := none
deriving DecidableEq, Repr

structure ICardInstance where
  instanceId : String
  cardId : String
  currentMetrics : Option CardMetrics := none
  isModifiedPermanently : Option Bool := none
  playedByPlayerId : Option String := none
  effectAppliedToCardInstanceId : Option String := none
  carRank : Option String := none
  originalMetrics : Option CardMetrics := none
deriving DecidableEq, Repr

structure IPlayerState where
  id : String
  name : String
  hand : List ICardInstance
  score : ℕ
deriving DecidableEq, Repr

/-- An entry of `pendingMetricModifiers`. -/
structure PendingModifier where
  sourcePlayerId : String
  actionCardInstanceId : String
  effect : IActionEffect
deriving DecidableEq, Repr

structure IGameState where
  gameId : String
  players : List IPlayerState
  currentPlayerId : String
  gameStatus : GameStatus
  roundWinnerId : Option String
  winnerId : Option String
  selectedMetricForRound : Option MetricType
  activeActionCardsOnBoard : List (String × Option ICardInstance)
  carCardsOnBoard : List (String × Option ICardInstance)
  discardPile : List ICardInstance
  drawPile : List ICardInstance
  lastPlayedCardInstanceId : Option String
  currentTurnStartTime : ℤ
  turnTimeLimit : ℚ
  rngSeed : ℤ
  gameLog : List String
  extraTurnPlayerId : Option String
  currentPlayerPhase : PlayerActionPhase
  pendingMetricModifiers : List (String × Option PendingModifier)
deriving DecidableEq, Repr

-- ===== generic helpers for the JS string-keyed objects =====

/-- Read a key from a JS object used as a map; an absent key (undefined)
and a `null` value are both `none` (both are falsy where the engine reads
these maps). -/
def mapGetD {α : Type} (m : List (String × Option α)) (k : String) : Option α :=
  match m with
  | [] => none
  | e :: rest => if e.1 = k then e.2 else mapGetD rest k

/-- JS property assignment `obj[k] = v`: replace an existing key in place,
or append a new key. -/
def mapSet {α : Type} (m : List (String × α)) (k : String) (v : α) : List (String × α) :=
  match m with
  | [] => [(k, v)]
  | e :: rest => if e.1 = k then (k, v) :: rest else e :: mapSet rest k v

/-- Mutation through the alias obtained by `players.find(...)`: update the
first player with the given id. -/
def updateFirst (players : List IPlayerState) (pid : String) (f : IPlayerState → IPlayerState) :
    List IPlayerState :=
  match players with
  | [] => []
  | p :: ps => if p.id = pid then f p :: ps else p :: updateFirst ps pid f

/-- Result of an engine computation that can `throw`. -/
inductive EngRes (α : Type) where
  | ok (value : α)
  | thrown (message : String)
deriving DecidableEq, Repr

/-- `Math.round`: round half towards positive infinity. -/
def jsRound (q : ℚ) : ℚ := ((q + 1 / 2).floor : ℤ)

-- ===== DeterministicRNG (game-engine.ts) =====

/-- 32-bit signed wrap-around (JS `ToInt32`). -/
def toInt32 (n : ℤ) : ℤ := (n + 2 ^ 31) % 2 ^ 32 - 2 ^ 31

def toUInt32 (n : ℤ) : ℕ := (n % 2 ^ 32).toNat

/-- JS `^` on 32-bit signed integers. -/
def xor32 (a b : ℤ) : ℤ := toInt32 (Int.ofNat (Nat.xor (toUInt32 a) (toUInt32 b)))

/-- JS `<< k` on 32-bit signed integers. -/
def shl32 (a : ℤ) (k : ℕ) : ℤ := toInt32 (toInt32 a * 2 ^ k)

/-- JS `>> k` (sign-propagating arithmetic shift) on 32-bit signed integers. -/
def sar32 (a : ℤ) (k : ℕ) : ℤ := Int.fdiv (toInt32 a) (2 ^ k)

structure DeterministicRNG where
  seed : ℤ
deriving DecidableEq, Repr

/-- One xorshift step.  The JS `next()` returns
`((seed < 0 ? ~seed + 1 : seed) % 100000) / 100000`; since `~s + 1 = -s`
exactly, the returned value is `|seed| % 100000 / 100000`.  We return the
numerator `k ∈ [0, 100000)`; every caller immediately computes
`Math.floor(next() * n)`, embedded as `k * n / 100000` in `ℕ`. -/
def rngNext (r : DeterministicRNG) : ℕ × DeterministicRNG :=
  let s1 := xor32 (toInt32 r.seed) (shl32 r.seed 13)
  let s2 := xor32 s1 (sar32 s1 17)
  let s3 := xor32 s2 (shl32 s2 5)
  (s3.natAbs % 100000, ⟨s3⟩)

/-- The parallel-assignment swap `[a[i], a[j]] = [a[j], a[i]]`. -/
def swapIdx {α : Type} (l : List α) (i j : ℕ) : List α :=
  match l.get? i, l.get? j with
  | some a, some b => (l.set i b).set j a
  | _, _ => l

/-- Fisher–Yates loop of `shuffle`, iterating index `i` from `len - 1`
down to `1`; `j = Math.floor(next() * (i + 1))`. -/
def rngShuffleGo {α : Type} : ℕ → DeterministicRNG → List α → List α × DeterministicRNG
  | 0, r, arr => (arr, r)
  | i + 1, r, arr =>
    let p := rngNext r
    let j := p.1 * (i + 2) / 100000
    rngShuffleGo i p.2 (swapIdx arr (i + 1) j)

def rngShuffle {α : Type} (r : DeterministicRNG) (arr : List α) : List α × DeterministicRNG :=
  rngShuffleGo (arr.length - 1) r arr

-- ===== card database access (game-engine.ts) =====

def getCardDefinition (db : List ICardDefinition) (cardId : String) : Option ICardDefinition :=
  db.find? (fun card => card.id == cardId)

def isCarCardDef (cardDef : ICardDefinition) : Bool := cardDef.type == .car

def isActionCardDef (cardDef : ICardDefinition) : Bool := cardDef.type == .action

/-- `getCarCardDefinition(card).metrics`: throws when the definition is
missing or is not a car card; a car definition without metrics is
unrepresentable for a well-typed `ICarCard`, modelled as a throw. -/
def getCarCardDefMetrics (db : List ICardDefinition) (card : ICardInstance) :
    EngRes CardMetrics :=
  match getCardDefinition db card.cardId with
  | none => .thrown ("Car card definition not found for cardId: " ++ card.cardId)
  | some cardDef =>
    if cardDef.type = .car then
      match cardDef.metrics with
      | some m => .ok m
      | none => .thrown ("Car card definition has no metrics: " ++ card.cardId)
    else .thrown ("Card " ++ card.cardId ++ " is not a car card")

/-- `(card.currentMetrics || getCarCardDefinition(card).metrics)[metric]`. -/
def cardMetricValue (db : List ICardDefinition) (card : ICardInstance) (metric : MetricType) :
    EngRes ℚ :=
  match card.currentMetrics with
  | some cm => .ok (cm.get metric)
  | none =>
    match getCarCardDefMetrics db card with
    | .ok dm => .ok (dm.get metric)
    | .thrown msg => .thrown msg

-- ===== initializeGame (game-engine.ts) =====

/-- One `players.forEach(player => ... shift())` pass of the dealing loop. -/
def dealPass (players : List IPlayerState) (deck : List ICardInstance) :
    List IPlayerState × List ICardInstance :=
  match players, deck with
  | [], rest => ([], rest)
  | p :: ps, [] =>
    let (ps2, rest2) := dealPass ps []
    (p :: ps2, rest2)
  | p :: ps, c :: rest =>
    let (ps2, rest2) := dealPass ps rest
    ({ p with hand := p.hand ++ [c] } :: ps2, rest2)

/-- The `for (let i = 0; i < 7; i++)` dealing loop. -/
def dealCards : ℕ → List IPlayerState → List ICardInstance →
    List IPlayerState × List ICardInstance
  | 0, players, deck => (players, deck)
  | n + 1, players, deck =>
    let (players2, deck2) := dealPass players deck
    dealCards n players2 deck2

def initializeGame (db : List ICardDefinition) (playerIds playerNames : List String)
    (initialSeed : ℤ) (timeLimit : ℚ) (_isInitialDrawEnabled : Bool)
    (uuid : ℕ → String) (now : ℤ) : EngRes IGameState :=
  let rng : DeterministicRNG := ⟨initialSeed⟩
  let allCarCardDefs := db.filter (fun d => isCarCardDef d)
  let allActionCardDefs := db.filter (fun d => isActionCardDef d)
  if allCarCardDefs.length = 0 then
    .thrown "Nincsenek betöltött autós kártyák a játékhoz! Ellenőrizze a CarList.json fájlt."
  else
    let numCarsInDeck := min 20 allCarCardDefs.length
    let numActionsInDeck := min 5 allActionCardDefs.length
    let shuffledCars := rngShuffle rng allCarCardDefs
    let carsForDeck := shuffledCars.1.take numCarsInDeck
    let shuffledActions := rngShuffle shuffledCars.2 allActionCardDefs
    let actionsForDeck := shuffledActions.1.take numActionsInDeck
    let rawCardDefsForDeck := carsForDeck ++ actionsForDeck
    let allGameCardInstances : List ICardInstance := rawCardDefsForDeck.enum.map
      (fun e =>
        { instanceId := uuid e.1
          cardId := e.2.id
          currentMetrics := if isCarCardDef e.2 then e.2.metrics else none
          originalMetrics := if isCarCardDef e.2 then e.2.metrics else none })
    let shuffledDeck := rngShuffle shuffledActions.2 allGameCardInstances
    let players0 : List IPlayerState := playerIds.enum.map
      (fun e => { id := e.2, name := playerNames.getD e.1 "undefined", hand := [], score := 0 })
    let dealt := dealCards 7 players0 shuffledDeck.1
    let startingPlayerId := playerIds.getD 0 "undefined"
    match dealt.1.find? (fun p => p.id == startingPlayerId) with
    | none => .thrown "TypeError: starting player not found"
    | some startingPlayer =>
      .ok
        { gameId := uuid allGameCardInstances.length
          players := dealt.1
          currentPlayerId := startingPlayerId
          gameStatus := .playing
          roundWinnerId := none
          winnerId := none
          selectedMetricForRound := none
          activeActionCardsOnBoard :=
            [(playerIds.getD 0 "undefined", none), (playerIds.getD 1 "undefined", none)]
          carCardsOnBoard :=
            [(playerIds.getD 0 "undefined", none), (playerIds.getD 1 "undefined", none)]
          discardPile := []
          drawPile := dealt.2
          lastPlayedCardInstanceId := none
          currentTurnStartTime := now
          turnTimeLimit := timeLimit
          rngSeed := initialSeed
          gameLog := ["A játék elindult! " ++ startingPlayer.name ++ " kezd."]
          extraTurnPlayerId := none
          currentPlayerPhase := .waiting_for_initial_play
          pendingMetricModifiers :=
            [(playerIds.getD 0 "undefined", none), (playerIds.getD 1 "undefined", none)] }

-- ===== isValidPlay (game-engine.ts) =====

structure ValidationResult where
  isValid : Bool
  message : Option String := none
deriving DecidableEq, Repr

structure PlayPayload where
  selectedMetric : Option MetricType := none
  targetPlayerId : Option String := none
deriving DecidableEq, Repr

/-- The JS `in` operator on an `availableMetrics : CardMetrics` object: a
`CardMetrics` object always carries all five metric keys, so the test is
always true for a valid metric name. -/
def metricKeyIn (_m : MetricType) (_am : CardMetrics) : Bool := true

def isValidPlay (db : List ICardDefinition) (state : IGameState) (playerId cardInstanceId : String)
    (payload : PlayPayload) : EngRes ValidationResult :=
  match state.players.find? (fun p => p.id == playerId) with
  | none => .thrown ("Player " ++ playerId ++ " not found.")
  | some player =>
    match player.hand.find? (fun c => c.instanceId == cardInstanceId) with
    | none => .ok { isValid := false, message := some "Kártya nem található a kezedben." }
    | some cardInstance =>
      match getCardDefinition db cardInstance.cardId with
      | none => .thrown ("TypeError: undefined card definition for " ++ cardInstance.cardId)
      | some cardDef =>
        if cardDef.type = .action ∧ state.currentPlayerPhase ≠ .waiting_for_initial_play then
          .ok { isValid := false, message := some "Akciókártyát csak a köröd legelején játszhatsz ki." }
        else if cardDef.type = .car ∧ state.currentPlayerPhase ≠ .waiting_for_initial_play ∧
            state.currentPlayerPhase ≠ .waiting_for_car_card_after_action then
          .ok { isValid := false, message := some "Most nem játszhatsz ki autós kártyát." }
        else if cardDef.type = .car ∧ state.selectedMetricForRound = none ∧
            payload.selectedMetric = none then
          .ok { isValid := false
                message := some "Ki kell választanod egy metrikát az első autós kártyához." }
        else
          match mapGetD state.pendingMetricModifiers playerId with
          | some pendingModifier =>
            if pendingModifier.effect.type = .override_metric then
              match payload.selectedMetric, pendingModifier.effect.availableMetrics with
              | some m, some am =>
                if metricKeyIn m am then .ok { isValid := true }
                else .ok { isValid := false
                           message := some "Érvénytelen metrikát választottál a felülíráshoz." }
              | _, _ =>
                .ok { isValid := false
                      message := some "Érvénytelen metrikát választottál a felülíráshoz." }
            else .ok { isValid := true }
          | none => .ok { isValid := true }

-- ===== checkGameEndConditions (game-engine.ts) =====

/-- `hand.filter(c => isCarCardDef(getCardDefinition(c.cardId)!))`; a missing
definition crashes the filter callback. -/
def filterCarCards (db : List ICardDefinition) : List ICardInstance →
    EngRes (List ICardInstance)
  | [] => .ok []
  | c :: rest =>
    match getCardDefinition db c.cardId with
    | none => .thrown ("TypeError: undefined card definition for " ++ c.cardId)
    | some d =>
      match filterCarCards db rest with
      | .ok l => .ok (if isCarCardDef d then c :: l else l)
      | .thrown m => .thrown m

def checkGameEndConditions (db : List ICardDefinition) (state : IGameState) :
    EngRes IGameState :=
  match state.players.find? (fun p => p.id == state.currentPlayerId) with
  | none => .thrown ("Player " ++ state.currentPlayerId ++ " not found.")
  | some currentPlayerState =>
    match filterCarCards db currentPlayerState.hand with
    | .thrown m => .thrown m
    | .ok currentPlayerCarCardsInHand =>
      match state.players.find? (fun p => p.id != state.currentPlayerId) with
      | none => .thrown ("Opponent for " ++ state.currentPlayerId ++ " not found.")
      | some opponentPlayerState =>
        let cond1 := currentPlayerCarCardsInHand.length = 0 ∧
          (state.currentPlayerPhase = .waiting_for_initial_play ∨
           state.currentPlayerPhase = .waiting_for_car_card_after_action)
        if _h1 : cond1 then
          -- winnerId set, status 'win'
          .ok { state with
            winnerId := some opponentPlayerState.id
            gameStatus := .win
            gameLog := state.gameLog ++
              ["Játék vége! " ++ opponentPlayerState.name ++ " nyert. Ok: " ++
               currentPlayerState.name ++ " kifogyott az autós kártyákból!"] }
        else
          if currentPlayerState.hand.length = 0 ∧ opponentPlayerState.hand.length = 0 ∧
              state.drawPile.length = 0 then
            .ok { state with
              gameStatus := .tie
              gameLog := state.gameLog ++ ["Játék vége! Döntetlen - minden lap elfogyott!"] }
          else .ok state

-- ===== resolveRound (game-engine.ts) =====

def resolveRound (db : List ICardDefinition) (state : IGameState) : EngRes IGameState :=
  match state.players.get? 0, state.players.get? 1 with
  | some player1, some player2 =>
    match mapGetD state.carCardsOnBoard player1.id, mapGetD state.carCardsOnBoard player2.id,
        state.selectedMetricForRound with
    | some player1Card, some player2Card, some metric =>
      match cardMetricValue db player1Card metric, cardMetricValue db player2Card metric with
      | .ok player1MetricValue, .ok player2MetricValue =>
        let roundWinnerId : Option String :=
          if metric = .weight ∨ metric = .accel then
            if player1MetricValue < player2MetricValue then some player1.id
            else if player2MetricValue < player1MetricValue then some player2.id
            else none
          else
            if player1MetricValue > player2MetricValue then some player1.id
            else if player2MetricValue > player1MetricValue then some player2.id
            else none
        let step : EngRes (IGameState × String) :=
          match roundWinnerId with
          | some wid =>
            match state.players.find? (fun p => p.id == wid),
                state.players.find? (fun p => p.id != wid) with
            | some winner, some loser =>
              match mapGetD state.carCardsOnBoard winner.id,
                  mapGetD state.carCardsOnBoard loser.id with
              | some winnerCard, some loserCard =>
                match cardMetricValue db winnerCard metric,
                    cardMetricValue db loserCard metric with
                | .ok winnerMetricValue, .ok loserMetricValue =>
                  let st2 := { state with
                    players := updateFirst state.players winner.id
                      (fun p =>
                        { p with
                          hand := p.hand ++ [winnerCard, loserCard]
                          score := p.score + 1 }) }
                  let newHandLength := winner.hand.length + 2
                  let st3 :=
                    if newHandLength > 10 then
                      { st2 with
                        currentPlayerPhase := .must_discard
                        currentPlayerId := winner.id
                        gameLog := st2.gameLog ++
                          [winner.name ++ " kezében túl sok lap van (" ++
                           toString newHandLength ++ "), dobnia kell egyet!"] }
                    else st2
                  .ok (st3, winner.name ++ " nyerte a kört! (" ++ metricName metric ++ ": " ++
                    toString winnerMetricValue ++ " vs " ++ toString loserMetricValue ++ ")")
                | .thrown m, _ => .thrown m
                | _, .thrown m => .thrown m
              | _, _ => .thrown "TypeError: winner or loser card undefined"
            | _, _ => .thrown ("Player " ++ wid ++ " not found.")
          | none =>
            let st2 := { state with
              players :=
                (state.players.set 0 { player1 with hand := player1.hand ++ [player1Card] }).set 1
                  { player2 with hand := player2.hand ++ [player2Card] } }
            .ok (st2, "Döntetlen a körben! (" ++ metricName metric ++ ": " ++
              toString player1MetricValue ++ " vs " ++ toString player2MetricValue ++
              "). A kártyák visszakerültek a játékosokhoz.")
        match step with
        | .thrown m => .thrown m
        | .ok (st3, message) =>
          let st4 := { st3 with
            roundWinnerId := roundWinnerId
            gameLog := st3.gameLog ++ [message]
            carCardsOnBoard := [(player1.id, none), (player2.id, none)]
            activeActionCardsOnBoard := [(player1.id, none), (player2.id, none)] }
          checkGameEndConditions db st4
      | .thrown m, _ => .thrown m
      | _, .thrown m => .thrown m
    | _, _, _ =>
      .thrown "GameEngine hiba: Nem lehet lezárni a kört, hiányzó kártya vagy metrika."
  | _, _ => .thrown "TypeError: players[0] or players[1] undefined"

-- ===== performPlay (game-engine.ts) =====

inductive PlayOutcome where
  | success (newState : IGameState)
  | failure (message : String)
  | thrown (message : String)
deriving DecidableEq, Repr

/-- The action-card branch of `performPlay`; `st` already has the played
card removed from the player's hand.  `opponent` is the alias fetched
before the removal (its `id`/`hand` are unchanged by it). -/
def performPlayActionBranch (st : IGameState) (playerId : String) (opponent : IPlayerState)
    (cardInstance : ICardInstance) (cardDef : ICardDefinition) (playerName : String) :
    PlayOutcome :=
  match cardDef.actionEffect with
  | none => .thrown ("TypeError: actionEffect undefined for " ++ cardDef.id)
  | some effect =>
    let targetId := if effect.target = .opponent then opponent.id else playerId
    let st0 := { st with
      activeActionCardsOnBoard := mapSet st.activeActionCardsOnBoard playerId (some cardInstance) }
    let st3 :=
      match effect.type with
      | .time_mod =>
        { st0 with
          turnTimeLimit := st0.turnTimeLimit + effect.value.getD 0
          gameLog := st0.gameLog ++
            [playerName ++ " kijátszotta a(z) '" ++ cardDef.name ++ "' kártyát, +" ++
             toString (effect.value.getD 0) ++ "s."] }
      | .extra_turn =>
        { st0 with
          extraTurnPlayerId := some playerId
          gameLog := st0.gameLog ++
            [playerName ++ " kijátszotta a(z) '" ++ cardDef.name ++ "' kártyát."] }
      | .drop_card =>
        if opponent.hand.length > 0 then
          -- fresh RNG seeded from the state seed perturbed by the hand size
          let rngForDrop : DeterministicRNG := ⟨st0.rngSeed + opponent.hand.length⟩
          let cardIndexToDrop := (rngNext rngForDrop).1 * opponent.hand.length / 100000
          match opponent.hand.get? cardIndexToDrop with
          | some droppedCard =>
            { st0 with
              players := updateFirst st0.players opponent.id
                (fun p => { p with hand := p.hand.eraseIdx cardIndexToDrop })
              discardPile := st0.discardPile ++ [droppedCard]
              gameLog := st0.gameLog ++
                [playerName ++ " a(z) '" ++ cardDef.name ++
                 "' kártyával eldobatta az ellenfél egy véletlenszerű lapját."] }
          | none => st0
        else
          { st0 with
            gameLog := st0.gameLog ++
              [playerName ++ " a(z) '" ++ cardDef.name ++
               "' kártyát játszotta ki, de az ellenfélnek nem volt lapja."] }
      | .metric_mod_temp | .metric_mod_perm | .override_metric =>
        { st0 with
          pendingMetricModifiers := mapSet st0.pendingMetricModifiers targetId
            (some { sourcePlayerId := playerId
                    actionCardInstanceId := cardInstance.instanceId
                    effect := effect })
          gameLog := st0.gameLog ++
            [playerName ++ " előkészített egy " ++ effectTypeName effect.type ++ " hatást " ++
             (if targetId = opponent.id then "az ellenfélre." else "magára.")] }
    .success { st3 with currentPlayerPhase := .waiting_for_car_card_after_action }

/-- The car-card branch of `performPlay`; `st` already has the played card
removed from the player's hand.  The TS code places the card instance on
`carCardsOnBoard[playerId]` first and then mutates it through that alias;
the embedding computes the final card value and places it once. -/
def performPlayCarBranch (db : List ICardDefinition) (st : IGameState) (playerId : String)
    (cardInstance : ICardInstance) (cardDef : ICardDefinition) (payload : PlayPayload)
    (playerName : String) : PlayOutcome :=
  let pendingStep : EngRes (ICardInstance × IGameState) :=
    match mapGetD st.pendingMetricModifiers playerId with
    | none => .ok (cardInstance, st)
    | some pendingModifier =>
      match mapGetD st.activeActionCardsOnBoard pendingModifier.sourcePlayerId with
      | none =>
        .thrown ("Inconsistent state: Pending modifier exists for player " ++ playerId ++
          ", but no action card is on the board.")
      | some actionCardInstanceOnBoard =>
        match getCardDefinition db actionCardInstanceOnBoard.cardId with
        | none =>
          .thrown ("Card definition not found for action card: " ++
            actionCardInstanceOnBoard.cardId)
        | some actionCardPlayedDef =>
          -- `if (!carCardOnBoard.currentMetrics) carCardOnBoard.currentMetrics = {...defMetrics}`
          let ensured : EngRes ICardInstance :=
            match cardInstance.currentMetrics with
            | some _ => .ok cardInstance
            | none =>
              match getCarCardDefMetrics db cardInstance with
              | .ok dm => .ok { cardInstance with currentMetrics := some dm }
              | .thrown m => .thrown m
          match ensured with
          | .thrown m => .thrown m
          | .ok c0 =>
            let effect := pendingModifier.effect
            let applied : EngRes (ICardInstance × IGameState) :=
              if effect.type = .metric_mod_temp ∨ effect.type = .metric_mod_perm then
                match effect.targetMetric with
                | none => .thrown "TypeError: targetMetric undefined"
                | some metricToModify =>
                  match c0.originalMetrics with
                  | none => .thrown "TypeError: originalMetrics undefined"
                  | some om =>
                    let originalValue := om.get metricToModify
                    let modifiedValue :=
                      if effect.modifierType = some .percentage then
                        originalValue * (1 + effect.value.getD 0 / 100)
                      else originalValue + effect.value.getD 0
                    let c1 := { c0 with
                      currentMetrics :=
                        some ((c0.currentMetrics.getD om).set metricToModify
                          (jsRound modifiedValue))
                      isModifiedPermanently :=
                        if effect.type = .metric_mod_perm then some true
                        else c0.isModifiedPermanently }
                    -- the log line calls getCarCardDefinition(carCardOnBoard).name, which
                    -- returns this same (car) definition
                    .ok (c1, { st with gameLog := st.gameLog ++
                      ["A(z) '" ++ actionCardPlayedDef.name ++ "' hatása érvényesült a(z) '" ++
                       cardDef.name ++ "' kártyán (" ++ metricName metricToModify ++
                       " módosítva)."] })
              else
                if effect.type = .override_metric ∧ payload.selectedMetric.isSome then
                  .ok (c0, { st with
                    selectedMetricForRound := payload.selectedMetric
                    gameLog := st.gameLog ++
                      [playerName ++ " a(z) '" ++ actionCardPlayedDef.name ++
                       "' kártyával megváltoztatta a metrikát erre: " ++
                       (payload.selectedMetric.map metricName).getD "" ++ "."] })
                else .ok (c0, st)
            match applied with
            | .thrown m => .thrown m
            | .ok (c1, st1) =>
              .ok (c1, { st1 with
                pendingMetricModifiers := mapSet st1.pendingMetricModifiers playerId none })
  match pendingStep with
  | .thrown m => .thrown m
  | .ok (c1, st2) =>
    let metricStep : PlayOutcome :=
      if st2.selectedMetricForRound = none then
        match payload.selectedMetric with
        | none => .failure "Metrika választás kötelező, ha még nincs kiválasztva a körre."
        | some m =>
          .success { st2 with
            selectedMetricForRound := some m
            gameLog := st2.gameLog ++
              [playerName ++ " a(z) '" ++ cardDef.name ++
               "' kijátszásával a kör metrikáját erre állította: " ++ metricName m ++ "."] }
      else .success st2
    match metricStep with
    | .success st3 =>
      .success { st3 with
        carCardsOnBoard := mapSet st3.carCardsOnBoard playerId (some c1)
        lastPlayedCardInstanceId := some cardInstance.instanceId
        currentPlayerPhase := .turn_ended }
    | other => other

/-- The common tail of `performPlay`: round resolution when both car
slots are occupied, the game-end check, and the hand-over of the turn. -/
def performPlayFinish (db : List ICardDefinition) (st : IGameState)
    (playerId opponentId : String) (now : ℤ) : PlayOutcome :=
  let resStep : PlayOutcome :=
    if (mapGetD st.carCardsOnBoard playerId).isSome ∧
        (mapGetD st.carCardsOnBoard opponentId).isSome then
      match resolveRound db st with
      | .thrown _ => .failure "Belső hiba a kör lezárásakor."
      | .ok r =>
        if r.currentPlayerPhase ≠ .must_discard then
          .success { r with currentPlayerPhase := .round_resolved }
        else .success r
    else .success st
  match resStep with
  | .success st2 =>
    match checkGameEndConditions db st2 with
    | .thrown m => .thrown m
    | .ok st3 =>
      if st3.gameStatus = .playing ∧ st3.roundWinnerId = none ∧
          st3.currentPlayerId = playerId ∧ st3.currentPlayerPhase = .turn_ended then
        match st3.players.find? (fun p => p.id != playerId) with
        | none => .thrown ("Opponent for " ++ playerId ++ " not found.")
        | some opp =>
          if mapGetD st3.carCardsOnBoard opp.id = none then
            .success { st3 with
              currentPlayerId := opp.id
              currentTurnStartTime := now
              currentPlayerPhase := .waiting_for_initial_play
              gameLog := st3.gameLog ++ ["--> Most " ++ opp.name ++ " köre."] }
          else .success st3
      else .success st3
  | other => other

def performPlay (db : List ICardDefinition) (state : IGameState)
    (playerId cardInstanceId : String) (payload : PlayPayload) (now : ℤ) : PlayOutcome :=
  match isValidPlay db state playerId cardInstanceId payload with
  | .thrown m => .thrown m
  | .ok validation =>
    if validation.isValid = false then .failure (validation.message.getD "Érvénytelen lépés")
    else
      match state.players.find? (fun p => p.id == playerId) with
      | none => .thrown ("Player " ++ playerId ++ " not found.")
      | some player =>
        match state.players.find? (fun p => p.id != playerId) with
        | none => .thrown ("Opponent for " ++ playerId ++ " not found.")
        | some opponent =>
          match player.hand.findIdx? (fun c => c.instanceId == cardInstanceId) with
          | none => .failure "Kártya hiba: Nem található a kezedben (belső hiba)."
          | some cardIndex =>
            match player.hand.get? cardIndex with
            | none => .failure "Kártya hiba: Nem található a kezedben (belső hiba)."
            | some cardInstance =>
              match getCardDefinition db cardInstance.cardId with
              | none => .thrown "TypeError: undefined card definition"
              | some cardDef =>
                let st1 := { state with
                  players := updateFirst state.players playerId
                    (fun p => { p with hand := p.hand.eraseIdx cardIndex }) }
                let branch : PlayOutcome :=
                  if cardDef.type = .action then
                    performPlayActionBranch st1 playerId opponent cardInstance cardDef player.name
                  else
                    performPlayCarBranch db st1 playerId cardInstance cardDef payload player.name
                match branch with
                | .success st2 => performPlayFinish db st2 playerId opponent.id now
                | other => other

-- ===== advanceTurn (game-engine.ts) =====

def advanceTurn (state : IGameState) (roundWinnerId : Option String) (now : ℤ) :
    EngRes IGameState :=
  if state.gameStatus ≠ .playing then .ok state
  else
    let st := { state with roundWinnerId := none, selectedMetricForRound := none }
    let nextStep : EngRes (String × IGameState) :=
      match st.extraTurnPlayerId with
      | some ep =>
        match st.players.find? (fun p => p.id == ep) with
        | none => .thrown ("Player " ++ ep ++ " not found.")
        | some p =>
          .ok (ep, { st with
            gameLog := st.gameLog ++ ["--> " ++ p.name ++ " extra köre következik."]
            extraTurnPlayerId := none })
      | none =>
        match roundWinnerId with
        | some w => .ok (w, st)
        | none =>
          match st.players.find? (fun p => p.id != st.currentPlayerId) with
          | none => .thrown ("Opponent for " ++ st.currentPlayerId ++ " not found.")
          | some opp => .ok (opp.id, st)
    match nextStep with
    | .thrown m => .thrown m
    | .ok (nextPlayerId, st1) =>
      let st2 := { st1 with
        currentPlayerId := nextPlayerId
        currentTurnStartTime := now
        currentPlayerPhase := .waiting_for_initial_play }
      match st2.players.find? (fun p => p.id == st2.currentPlayerId) with
      | none => .thrown ("Player " ++ st2.currentPlayerId ++ " not found.")
      | some p =>
        .ok { st2 with gameLog := st2.gameLog ++ ["--> Most " ++ p.name ++ " köre."] }

-- ===== endGameByTimeout (game-engine.ts) =====

def endGameByTimeout (state : IGameState) (timedOutPlayerId : String) : EngRes IGameState :=
  if state.gameStatus ≠ .playing then .ok state
  else
    match state.players.find? (fun p => p.id != timedOutPlayerId) with
    | none => .thrown ("Opponent for " ++ timedOutPlayerId ++ " not found.")
    | some opponentOfTimedOut =>
      match state.players.find? (fun p => p.id == timedOutPlayerId) with
      | none => .thrown ("Player " ++ timedOutPlayerId ++ " not found.")
      | some timedOutPlayer =>
        .ok { state with
          winnerId := some opponentOfTimedOut.id
          gameStatus := .win
          gameLog := state.gameLog ++
            [timedOutPlayer.name ++ " ideje lejárt! " ++ opponentOfTimedOut.name ++ " nyert."] }

-- ===== getClientGameState (game-engine.ts) =====

/-- The object literal `{ instanceId: card.instanceId, cardId: 'HIDDEN_CARD_BACK' }`. -/
def hideCard (card : ICardInstance) : ICardInstance :=
  { instanceId := card.instanceId, cardId := "HIDDEN_CARD_BACK" }

/-- The client-visible projection: the TS code deletes `rngSeed` and adds
`drawPileSize`, so the projected value has its own shape. -/
structure ClientGameState where
  gameId : String
  players : List IPlayerState
  currentPlayerId : String
  gameStatus : GameStatus
  roundWinnerId : Option String
  winnerId : Option String
  selectedMetricForRound : Option MetricType
  activeActionCardsOnBoard : List (String × Option ICardInstance)
  carCardsOnBoard : List (String × Option ICardInstance)
  discardPile : List ICardInstance
  drawPile : List ICardInstance
  lastPlayedCardInstanceId : Option String
  currentTurnStartTime : ℤ
  turnTimeLimit : ℚ
  gameLog : List String
  extraTurnPlayerId : Option String
  currentPlayerPhase : PlayerActionPhase
  pendingMetricModifiers : List (String × Option PendingModifier)
  drawPileSize : ℕ
deriving DecidableEq, Repr

def getClientGameState (serverState : IGameState) (requestingPlayerId : String) :
    ClientGameState :=
  { gameId := serverState.gameId
    players := serverState.players.map
      (fun player =>
        if player.id ≠ requestingPlayerId then
          { player with hand := player.hand.map hideCard }
        else player)
    currentPlayerId := serverState.currentPlayerId
    gameStatus := serverState.gameStatus
    roundWinnerId := serverState.roundWinnerId
    winnerId := serverState.winnerId
    selectedMetricForRound := serverState.selectedMetricForRound
    activeActionCardsOnBoard := serverState.activeActionCardsOnBoard
    carCardsOnBoard := serverState.carCardsOnBoard
    discardPile := serverState.discardPile
    drawPile := []
    lastPlayedCardInstanceId := serverState.lastPlayedCardInstanceId
    currentTurnStartTime := serverState.currentTurnStartTime
    turnTimeLimit := serverState.turnTimeLimit
    gameLog := serverState.gameLog
    extraTurnPlayerId := serverState.extraTurnPlayerId
    currentPlayerPhase := serverState.currentPlayerPhase
    pendingMetricModifiers := serverState.pendingMetricModifiers
    drawPileSize := serverState.drawPile.length }

-- ===== matchmakingManager.ts: AI spawn policy =====

structure PlayerInLobby where
  userId : String
  username : String
  socketId : String
  joinedAt : ℤ
  isBot : Bool
  humanOnly : Bool := false
deriving DecidableEq, Repr

structure MatchmakingConfig where
  maxPlayersPerMatch : ℕ
  aiEnabled : Bool
  aiDelayMs : ℤ
  humanOnlyMaxWaitMs : ℤ
deriving DecidableEq, Repr

/-- `Math.min(...)` over the join timestamps of a non-empty list (the
caller guards on non-emptiness). -/
def minJoinedAt (l : List ℤ) : ℤ :=
  match l with
  | [] => 0
  | x :: xs => xs.foldl min x

/-- The decision taken by `scheduleAISpawn`: `some aiDelayMs` when a spawn
timer is armed, `none` when the method returns without scheduling.
`aiSpawnTimerPending` is whether `this.aiSpawnTimer` is already set. -/
def scheduleAISpawn (config : MatchmakingConfig) (playersInLobby : List PlayerInLobby)
    (aiSpawnTimerPending : Bool) (now : ℤ) : Option ℤ :=
  if ¬config.aiEnabled ∨ aiSpawnTimerPending then none
  else
    let humans := playersInLobby.filter (fun p => !p.isBot)
    let humanPlayerCount := humans.length
    let humanOnlyPlayers := humans.filter (fun p => p.humanOnly)
    if humanOnlyPlayers.length > 0 ∧
        max 0 (now - minJoinedAt (humanOnlyPlayers.map (fun p => p.joinedAt))) <
          config.humanOnlyMaxWaitMs then
      none
    else
      if humanPlayerCount > 0 ∧ playersInLobby.length < config.maxPlayersPerMatch then
        some config.aiDelayMs
      else none

-- ===== game-manager.ts: the guard at the top of handlePlayerMove =====

/-- `handlePlayerMove` submits the move to `performPlay` only when the
sender is the current player, the game is still playing, and the phase is
not `both_cards_on_board`. -/
def handlePlayerMoveAccepts (gameState : IGameState) (playerId : String) : Bool :=
  if gameState.currentPlayerId ≠ playerId ∨ gameState.gameStatus ≠ .playing then false
  else if gameState.currentPlayerPhase = .both_cards_on_board then false
  else true

-- ===== card accounting (for the conservation claims) =====

/-- Instance identifiers held in the value slots of a board map. -/
def slotIds (m : List (String × Option ICardInstance)) : Multiset String :=
  ↑(m.filterMap (fun e => e.2.map (fun c => c.instanceId)))

def handIds (p : IPlayerState) : Multiset String :=
  ↑(p.hand.map (fun c => c.instanceId))

/-- The multiset of card instance identifiers across both hands, both
car-board slots, both action-board slots, the discard pile and the draw
pile. -/
def allCardIds (s : IGameState) : Multiset String :=
  (s.players.map handIds).sum + slotIds s.carCardsOnBoard +
    slotIds s.activeActionCardsOnBoard +
    ↑(s.discardPile.map (fun c => c.instanceId)) +
    ↑(s.drawPile.map (fun c => c.instanceId))

-- ===== the static action-card definitions (loadCardDefinitions) =====

def SERVER_URL : String := "http://localhost:3000"

def staticActionCards : List ICardDefinition := [
  { id := "ACTION_TIME_BOOST", name := "Időbónusz", type := .action, description := "+30 mp",
    imageUrl := some (SERVER_URL ++ "/images/action-time-boost.png"),
    actionEffect := some { type := .time_mod, value := some 30, target := .game } },
  { id := "ACTION_HP_BOOST_TEMP", name := "Turbó Feltöltés", type := .action,
    description := "+20% HP (ideiglenes)",
    imageUrl := some (SERVER_URL ++ "/images/action-hp-boost-temp.png"),
    actionEffect := some { type := .metric_mod_temp, targetMetric := some .hp, value := some 20, modifierType := some .percentage, target := .self } },
  { id := "ACTION_HP_BOOST_PERM", name := "Örök Tuning", type := .action,
    description := "+50 HP (permanens)",
    imageUrl := some (SERVER_URL ++ "/images/action-hp-boost-perm.png"),
    actionEffect := some { type := .metric_mod_perm, targetMetric := some .hp, value := some 50, modifierType := some .absolute, target := .self } },
  { id := "ACTION_EXTRA_TURN", name := "Extra Kör", type := .action,
    description := "Még egy kör",
    imageUrl := some (SERVER_URL ++ "/images/action-extra-turn.png"),
    actionEffect := some { type := .extra_turn, target := .self } },
  { id := "ACTION_WEIGHT_PENALTY_TEMP", name := "Homokzsák", type := .action,
    description := "+200 kg (ideiglenes)",
    imageUrl := some (SERVER_URL ++ "/images/action-weight-penalty-temp.png"),
    actionEffect := some { type := .metric_mod_temp, targetMetric := some .weight, value := some 200, modifierType := some .absolute, target := .opponent } },
  { id := "ACTION_DROP_CARD", name := "Lap Lehúzás", type := .action,
    description := "Ellenféltől lapot vesz el",
    imageUrl := some (SERVER_URL ++ "/images/action-drop-card.png"),
    actionEffect := some { type := .drop_card, target := .opponent } },
  { id := "ACTION_OVERRIDE_METRIC_CHOICE", name := "Taktikai Váltás", type := .action,
    description := "Válassz új metrikát!",
    imageUrl := some (SERVER_URL ++ "/images/action-override-metric.png"),
    actionEffect := some { type := .override_metric, availableMetrics := some { speed := 0, hp := 0, accel := 0, weight := 0, year := 0 }, target := .self } } ]

-- ===== concrete fixtures used by the witnesses and counterexamples =====
-- The car catalogue of the repository lives in `CarList.json` (not part of
-- the sources); the cars below are test data in the shape
-- `parseJsonToCarCards` produces.

def mkTestCar (id nm : String) (speed hp accel weight year : ℚ) : ICardDefinition :=
  { id := id, name := nm, type := .car, description := nm,
    metrics := some { speed := speed, hp := hp, accel := accel, weight := weight, year := year } }

def carA : ICardDefinition := mkTestCar "CAR_A" "Car A" 200 300 5 1500 2001
def carB : ICardDefinition := mkTestCar "CAR_B" "Car B" 180 250 6 1600 1999
def carC : ICardDefinition := mkTestCar "CAR_C" "Car C" 220 333 4 1400 2005

/-- A two-car catalogue (deals one car to each player). -/
def dbCars : List ICardDefinition := [carA, carB]

/-- Cars together with the permanent HP boost action card. -/
def dbPerm : List ICardDefinition := [carA, carB, carC,
  { id := "ACTION_HP_BOOST_PERM", name := "Örök Tuning", type := .action,
    description := "+50 HP (permanens)",
    actionEffect := some { type := .metric_mod_perm, targetMetric := some .hp, value := some 50, modifierType := some .absolute, target := .self } }]

def testUuid : ℕ → String := fun n => "u" ++ toString n

/-- Extract the `ok` value of an engine result (fixtures only). -/
def stateOfOk (r : EngRes IGameState) (dflt : IGameState) : IGameState :=
  match r with
  | .ok s => s
  | .thrown _ => dflt

def stateOfSuccess (r : PlayOutcome) (dflt : IGameState) : IGameState :=
  match r with
  | .success s => s
  | _ => dflt

def emptyState : IGameState :=
  { gameId := "", players := [], currentPlayerId := "", gameStatus := .playing,
    roundWinnerId := none, winnerId := none, selectedMetricForRound := none,
    activeActionCardsOnBoard := [], carCardsOnBoard := [], discardPile := [], drawPile := [],
    lastPlayedCardInstanceId := none, currentTurnStartTime := 0, turnTimeLimit := 0,
    rngSeed := 0, gameLog := [], extraTurnPlayerId := none,
    currentPlayerPhase := .waiting_for_initial_play, pendingMetricModifiers := [] }

-- ===== fixture play chains (reachable states used in the theorems) =====

/-- Second uuid supply, to model a second independent run. -/
def testUuidB : ℕ → String := fun n => "v" ++ toString n

/-- Initial state of the two-car catalogue, seed 1 (p1 holds CAR_B/u1,
p2 holds CAR_A/u0, p1 starts). -/
def s0cars : IGameState :=
  stateOfOk (initializeGame dbCars ["p1", "p2"] ["P1", "P2"] 1 300 true testUuid 1000) emptyState

/-- Same run with the second uuid supply. -/
def s0carsB : IGameState :=
  stateOfOk (initializeGame dbCars ["p1", "p2"] ["P1", "P2"] 1 300 true testUuidB 1000) emptyState

/-- Out-of-turn play: in `s0cars` the current player is p1, yet p2's play
is accepted by the engine. -/
def s1outOfTurn : IGameState :=
  stateOfSuccess (performPlay dbCars s0cars "p2" "u0" { selectedMetric := some .speed } 1001)
    emptyState

-- ===== handcrafted states for the counterexamples/witnesses =====

def carInstA : ICardInstance :=
  { instanceId := "i-a", cardId := "CAR_A",
    currentMetrics := (mkTestCar "CAR_A" "Car A" 200 300 5 1500 2001).metrics,
    originalMetrics := (mkTestCar "CAR_A" "Car A" 200 300 5 1500 2001).metrics }

def carInstC : ICardInstance :=
  { instanceId := "i-c", cardId := "CAR_C",
    currentMetrics := (mkTestCar "CAR_C" "Car C" 220 333 4 1400 2005).metrics,
    originalMetrics := (mkTestCar "CAR_C" "Car C" 220 333 4 1400 2005).metrics }

def actionInstTemp : ICardInstance :=
  { instanceId := "i-act", cardId := "ACTION_HP_BOOST_TEMP" }

def actionInstPerm : ICardInstance :=
  { instanceId := "i-act", cardId := "ACTION_HP_BOOST_PERM" }

def tempHpEffect : IActionEffect :=
  { type := .metric_mod_temp, targetMetric := some .hp, value := some 20,
    modifierType := some .percentage, target := .self }

def permHpEffect : IActionEffect :=
  { type := .metric_mod_perm, targetMetric := some .hp, value := some 50,
    modifierType := some .absolute, target := .self }

/-- A mid-round state in which p1 has already played the +20% HP action
card and now holds CAR_C (hp 333): playing it must apply the pending
percentage modifier. -/
def sTempPending : IGameState :=
  { emptyState with
    players := [{ id := "p1", name := "P1", hand := [carInstC], score := 0 },
                { id := "p2", name := "P2", hand := [carInstA], score := 0 }],
    currentPlayerId := "p1",
    activeActionCardsOnBoard := [("p1", some actionInstTemp), ("p2", none)],
    carCardsOnBoard := [("p1", none), ("p2", none)],
    selectedMetricForRound := some .hp,
    currentPlayerPhase := .waiting_for_car_card_after_action,
    pendingMetricModifiers :=
      [("p1", some { sourcePlayerId := "p1", actionCardInstanceId := "i-act",
                     effect := tempHpEffect }),
       ("p2", none)] }

def dbTemp : List ICardDefinition := [carA, carC,
  { id := "ACTION_HP_BOOST_TEMP", name := "Turbó Feltöltés", type := .action,
    description := "+20% HP (ideiglenes)", actionEffect := some tempHpEffect }]

def dbPermOnly : List ICardDefinition := [carA, carC,
  { id := "ACTION_HP_BOOST_PERM", name := "Örök Tuning", type := .action,
    description := "+50 HP (permanens)", actionEffect := some permHpEffect }]

/-- An already-ended state (`tie`) in which the current player has no car
cards while the phase requires one: `checkGameEndConditions` rewrites the
status. -/
def sEndedTie : IGameState :=
  { emptyState with
    players := [{ id := "p1", name := "P1", hand := [], score := 0 },
                { id := "p2", name := "P2", hand := [carInstA], score := 0 }],
    currentPlayerId := "p1",
    gameStatus := .tie,
    currentPlayerPhase := .waiting_for_initial_play,
    carCardsOnBoard := [("p1", none), ("p2", none)],
    activeActionCardsOnBoard := [("p1", none), ("p2", none)],
    pendingMetricModifiers := [("p1", none), ("p2", none)],
    drawPile := [carInstC] }

-- ===== stripping identifiers/timestamps (determinism modulo uuid/clock) =====

/-- Erase the uuid-derived instance identifier. -/
def stripInstance (c : ICardInstance) : ICardInstance := { c with instanceId := "" }

def stripPlayer (p : IPlayerState) : IPlayerState := { p with hand := p.hand.map stripInstance }

def stripSlot (e : String × Option ICardInstance) : String × Option ICardInstance :=
  (e.1, e.2.map stripInstance)

/-- Erase everything `initializeGame` takes from `uuidv4()`/`Date.now()`:
the game id, every instance id, and the turn start time. -/
def stripState (s : IGameState) : IGameState :=
  { s with
    gameId := ""
    currentTurnStartTime := 0
    players := s.players.map stripPlayer
    carCardsOnBoard := s.carCardsOnBoard.map stripSlot
    activeActionCardsOnBoard := s.activeActionCardsOnBoard.map stripSlot
    discardPile := s.discardPile.map stripInstance
    drawPile := s.drawPile.map stripInstance
    lastPlayedCardInstanceId := none }

/-- Catalogue with three cars and the (arithmetic-free) extra-turn action
card. -/
def dbExtra : List ICardDefinition := [carA, carB, carC,
  { id := "ACTION_EXTRA_TURN", name := "Extra Kör", type := .action, description := "Még egy kör",
    actionEffect := some { type := .extra_turn, target := .self } }]

/-- Seed 3 deals p1 = [ACTION_EXTRA_TURN (u3), CAR_A (u2)],
p2 = [CAR_C (u0), CAR_B (u1)]; p1 starts. -/
def t0extra : IGameState :=
  stateOfOk (initializeGame dbExtra ["p1", "p2"] ["P1", "P2"] 3 300 true testUuid 1000) emptyState

/-- p1 plays the extra-turn action card (u3): it occupies p1's action-board
slot. -/
def t1extra : IGameState :=
  stateOfSuccess (performPlay dbExtra t0extra "p1" "u3" {} 1001) emptyState

/-- p1 plays CAR_A (u2) choosing `speed`; the turn passes to p2. -/
def t2extra : IGameState :=
  stateOfSuccess (performPlay dbExtra t1extra "p1" "u2" { selectedMetric := some .speed } 1002)
    emptyState

/-- p2 plays CAR_C (u0): the round resolves inside this call and the
action card u3 disappears from every zone. -/
def t3extra : IGameState :=
  stateOfSuccess (performPlay dbExtra t2extra "p2" "u0" {} 1003) emptyState

/-- In the two-car game: p1 plays CAR_B (u1) choosing `hp`; turn passes
to p2. -/
def s1cars : IGameState :=
  stateOfSuccess (performPlay dbCars s0cars "p1" "u1" { selectedMetric := some .hp } 1001)
    emptyState

/-- p2 plays CAR_A (u0): the second car card of the round. -/
def s2cars : IGameState :=
  stateOfSuccess (performPlay dbCars s1cars "p2" "u0" {} 1002) emptyState

/-- Scenario S5: two human-only players, joined at t=0 and t=100 ms. -/
def lobbyS5 : List PlayerInLobby :=
  [{ userId := "h1", username := "H1", socketId := "s1", joinedAt := 0, isBot := false,
     humanOnly := true },
   { userId := "h2", username := "H2", socketId := "s2", joinedAt := 100, isBot := false,
     humanOnly := true }]

def configS5 : MatchmakingConfig :=
  { maxPlayersPerMatch := 2, aiEnabled := true, aiDelayMs := 500, humanOnlyMaxWaitMs := 8000 }

/-- Result of running the end-check on the already-ended `sEndedTie`. -/
def sEndedTieOut : IGameState := stateOfOk (checkGameEndConditions [] sEndedTie) emptyState

/-- A state ready for round resolution: CAR_A (speed 200) on p1's slot,
CAR_C (speed 220) on p2's slot, metric `speed`. -/
def sResolveW : IGameState :=
  { emptyState with
    players := [{ id := "p1", name := "P1", hand := [], score := 0 },
                { id := "p2", name := "P2", hand := [carInstA], score := 2 }],
    currentPlayerId := "p2",
    selectedMetricForRound := some .speed,
    carCardsOnBoard :=
      [("p1", some { instanceId := "w-a", cardId := "CAR_A",
                     currentMetrics := carA.metrics, originalMetrics := carA.metrics }),
       ("p2", some { instanceId := "w-c", cardId := "CAR_C",
                     currentMetrics := carC.metrics, originalMetrics := carC.metrics })],
    activeActionCardsOnBoard := [("p1", some actionInstPerm), ("p2", none)],
    pendingMetricModifiers := [("p1", none), ("p2", none)],
    currentPlayerPhase := .turn_ended,
    drawPile := [carInstC] }

/-- Result of resolving `sResolveW`. -/
def sResolveWOut : IGameState := stateOfOk (resolveRound dbPerm sResolveW) emptyState

/-- Result of p1 playing CAR_C into the pending +20% HP modifier. -/
def s5temp : IGameState :=
  stateOfSuccess (performPlay dbTemp sTempPending "p1" "i-c" {} 1004) emptyState

/-- A mid-round state in which p1 has played the +50 HP permanent action
card, the opponent's car (CAR_C) is already on the board, and no round
metric is selected yet: p1's next car play supplies the metric via the
payload and immediately resolves the round. -/
def sPermRes : IGameState :=
  { emptyState with
    players := [{ id := "p1", name := "P1", hand := [carInstA], score := 0 },
                { id := "p2", name := "P2", hand := [], score := 0 }],
    currentPlayerId := "p1",
    activeActionCardsOnBoard := [("p1", some actionInstPerm), ("p2", none)],
    carCardsOnBoard := [("p1", none), ("p2", some carInstC)],
    selectedMetricForRound := none,
    currentPlayerPhase := .waiting_for_car_card_after_action,
    pendingMetricModifiers :=
      [("p1", some { sourcePlayerId := "p1", actionCardInstanceId := "i-act",
                     effect := permHpEffect }),
       ("p2", none)] }

def sPermResOut : IGameState :=
  stateOfSuccess (performPlay dbPermOnly sPermRes "p1" "i-a"
    { selectedMetric := some .speed } 1005) emptyState

/-- Result of advancing the turn in `s0cars`. -/
def sAdv : IGameState := stateOfOk (advanceTurn s0cars none 2000) emptyState

/-- Result of ending `s0cars` by timeout. -/
def sTmo : IGameState := stateOfOk (endGameByTimeout s0cars "p1") emptyState

/-- Result of checking end conditions on `s0cars`. -/
def sCgec : IGameState := stateOfOk (checkGameEndConditions dbCars s0cars) emptyState

-- ======================================================================
-- Theorems
-- ======================================================================

theorem foldl_min_mem (x : ℤ) (xs : List ℤ) : xs.foldl min x ∈ x :: xs := by
  induction xs generalizing x with
  | nil => simp
  | cons y ys ih =>
    simp only [List.foldl]
    have h := ih (min x y)
    rw [List.mem_cons] at h
    rcases h with h | h
    · rcases min_choice x y with h2 | h2 <;> rw [h, h2] <;> simp
    · simp [h]

theorem minJoinedAt_mem (l : List ℤ) (h : l ≠ []) : minJoinedAt l ∈ l := by
  match l with
  | [] => exact absurd rfl h
  | x :: xs => simpa [minJoinedAt] using foldl_min_mem x xs

/-- C9: the lobby schedules an AI spawn (after `aiDelayMs`) only when AI is
enabled, no spawn timer is pending, at least one human is waiting and the
queue is below `maxPlayersPerMatch` (2 in the deployed configuration); and it
never schedules while there are human-only-flagged waiting players all of
whom have been waiting less than `humanOnlyMaxWaitMs`. -/
theorem C9_ai_spawn_policy :
    (∀ (config : MatchmakingConfig) (lobby : List PlayerInLobby) (pending : Bool) (now d : ℤ),
        scheduleAISpawn config lobby pending now = some d →
        d = config.aiDelayMs ∧ config.aiEnabled = true ∧ pending = false ∧
          0 < (lobby.filter (fun p => !p.isBot)).length ∧
          lobby.length < config.maxPlayersPerMatch) ∧
    (∀ (config : MatchmakingConfig) (lobby : List PlayerInLobby) (pending : Bool) (now : ℤ),
        (∃ p ∈ lobby, p.isBot = false ∧ p.humanOnly = true) →
        (∀ p ∈ lobby, p.isBot = false → p.humanOnly = true →
          max 0 (now - p.joinedAt) < config.humanOnlyMaxWaitMs) →
        scheduleAISpawn config lobby pending now = none) := by
  constructor
  · intro config lobby pending now d h
    unfold scheduleAISpawn at h
    simp only [] at h
    split at h
    · exact absurd h (by simp)
    · rename_i hcond
      push_neg at hcond
      split at h
      · exact absurd h (by simp)
      · split at h
        · rename_i hfin
          simp only [Option.some.injEq] at h
          exact ⟨h.symm, by simpa using hcond.1, by simpa using hcond.2, hfin.1, hfin.2⟩
        · exact absurd h (by simp)
  · intro config lobby pending now hex hall
    unfold scheduleAISpawn
    simp only []
    split
    · rfl
    · split
      · rfl
      · rename_i hguard
        exfalso
        apply hguard
        obtain ⟨p0, hp0mem, hp0bot, hp0h⟩ := hex
        have hp0ho : p0 ∈ (lobby.filter (fun p => !p.isBot)).filter (fun p => p.humanOnly) := by
          simp [List.mem_filter, hp0mem, hp0bot, hp0h]
        constructor
        · exact List.length_pos.mpr (fun hnil => by simp [hnil] at hp0ho)
        · have hne : ((lobby.filter (fun p => !p.isBot)).filter (fun p => p.humanOnly)).map
              (fun p => p.joinedAt) ≠ [] := by
            intro hnil
            rw [List.map_eq_nil_iff] at hnil
            simp [hnil] at hp0ho
          have hmem := minJoinedAt_mem _ hne
          rw [List.mem_map] at hmem
          obtain ⟨q, hqmem, hqjoin⟩ := hmem
          rw [List.mem_filter] at hqmem
          obtain ⟨hqh, hqho⟩ := hqmem
          rw [List.mem_filter] at hqh
          obtain ⟨hqlobby, hqbot⟩ := hqh
          rw [← hqjoin]
          exact hall q hqlobby (by simpa using hqbot) hqho

/-- C9 witness: scenario S5 — two human-only players joined at t=0 and
t=100 ms, `humanOnlyMaxWaitMs = 8000`; at t=600 ms no AI spawn is
scheduled. -/
theorem C9_ai_spawn_policy_witness : scheduleAISpawn configS5 lobbyS5 false 600 = none :=
  C9_ai_spawn_policy.2 configS5 lobbyS5 false 600
    ⟨{ userId := "h1", username := "H1", socketId := "s1", joinedAt := 0, isBot := false,
       humanOnly := true }, by decide, rfl, rfl⟩
    (by decide)

/-- C10: the engine never enforces turn ownership — `isValidPlay` does not
read `currentPlayerId` at all; in the reachable initial state `s0cars`
(current player p1) the out-of-turn play by p2 is accepted by `performPlay`
and mutates the state; out-of-turn rejection exists only in the
orchestrator's `handlePlayerMove` guard. -/
theorem C10_no_turn_ownership_check :
    (∀ (db : List ICardDefinition) (s : IGameState) (x pid cid : String) (payload : PlayPayload),
      isValidPlay db { s with currentPlayerId := x } pid cid payload =
        isValidPlay db s pid cid payload) ∧
    (s0cars.currentPlayerId = "p1" ∧ ("p2" : String) ≠ "p1" ∧
      performPlay dbCars s0cars "p2" "u0" { selectedMetric := some .speed } 1001 =
        .success s1outOfTurn ∧ s1outOfTurn ≠ s0cars) ∧
    (∀ (s : IGameState) (pid : String), pid ≠ s.currentPlayerId →
      handlePlayerMoveAccepts s pid = false) := by
  refine ⟨fun _ _ _ _ _ _ => rfl, ⟨rfl, by decide, rfl, by decide⟩, ?_⟩
  intro s pid h
  simp [handlePlayerMoveAccepts]
  intro h2
  exact absurd h2.symm h

/-- C10 witness: the orchestrator guard rejects p2's out-of-turn move in
the concrete state `s0cars`. -/
theorem C10_no_turn_ownership_check_witness : handlePlayerMoveAccepts s0cars "p2" = false :=
  C10_no_turn_ownership_check.2.2 s0cars "p2" (by decide)

/-- C6: every play rejected by validation (card not in hand, action card in
the wrong phase, car card in the wrong phase, first car without a metric,
invalid override-metric selection — exactly the five validation messages)
makes `performPlay` return a failure result carrying that message.  The
failure constructor carries no state: in this pure embedding of the
deep-copy-then-mutate TS code, the caller's input state is untouched. -/
theorem C6_rejected_play_is_failure :
    (∀ (db : List ICardDefinition) (s : IGameState) (pid cid : String) (payload : PlayPayload)
      (now : ℤ) (v : ValidationResult),
      isValidPlay db s pid cid payload = .ok v → v.isValid = false →
      performPlay db s pid cid payload now = .failure (v.message.getD "Érvénytelen lépés")) ∧
    (∀ (db : List ICardDefinition) (s : IGameState) (pid cid : String) (payload : PlayPayload)
      (v : ValidationResult),
      isValidPlay db s pid cid payload = .ok v → v.isValid = false →
      v.message = some "Kártya nem található a kezedben." ∨
      v.message = some "Akciókártyát csak a köröd legelején játszhatsz ki." ∨
      v.message = some "Most nem játszhatsz ki autós kártyát." ∨
      v.message = some "Ki kell választanod egy metrikát az első autós kártyához." ∨
      v.message = some "Érvénytelen metrikát választottál a felülíráshoz.") := by
  constructor
  · intro db s pid cid payload now v h1 h2
    unfold performPlay
    rw [h1]
    simp [h2]
  · intro db s pid cid payload v h1 h2
    unfold isValidPlay at h1
    repeat' split at h1
    all_goals first
    | (cases h1; simp_all)
    | simp_all

/-- C6 witness: playing an instance id that is not in the hand fails with
the corresponding message. -/
theorem C6_rejected_play_is_failure_witness :
    performPlay dbCars s0cars "p1" "nope" {} 1001 =
      .failure "Kártya nem található a kezedben." :=
  C6_rejected_play_is_failure.1 dbCars s0cars "p1" "nope" {} 1001
    { isValid := false, message := some "Kártya nem található a kezedben." } rfl rfl

/-- C7: the client projection keeps the requesting player's hand unchanged,
rewrites every opponent hand entry to carry only its instance identifier
and the sentinel definition id `HIDDEN_CARD_BACK` (all other fields
absent), replaces the draw pile by the single number `drawPileSize`
(the projection does not depend on the pile's contents, only its length),
and does not depend on the RNG seed (the projected shape has no seed
field). -/
theorem C7_projection_hiding :
    (∀ (s : IGameState) (pid : String),
      (getClientGameState s pid).players.map
          (fun p => if p.id = pid then some p.hand else none) =
        s.players.map (fun p => if p.id = pid then some p.hand else none)) ∧
    (∀ (s : IGameState) (pid : String),
      (getClientGameState s pid).players.map (fun p => p.hand.map (fun c => c.instanceId)) =
        s.players.map (fun p => p.hand.map (fun c => c.instanceId))) ∧
    (∀ (s : IGameState) (pid : String) (p : IPlayerState),
      p ∈ (getClientGameState s pid).players → p.id ≠ pid →
      ∀ c ∈ p.hand, c.cardId = "HIDDEN_CARD_BACK" ∧ c.currentMetrics = none ∧
        c.originalMetrics = none ∧ c.isModifiedPermanently = none ∧ c.carRank = none ∧
        c.playedByPlayerId = none ∧ c.effectAppliedToCardInstanceId = none) ∧
    (∀ (s : IGameState) (pid : String),
      (getClientGameState s pid).drawPileSize = s.drawPile.length ∧
      (getClientGameState s pid).drawPile = []) ∧
    (∀ (s : IGameState) (pid : String) (x : ℤ),
      getClientGameState { s with rngSeed := x } pid = getClientGameState s pid) ∧
    (∀ (s : IGameState) (pid : String) (l : List ICardInstance),
      l.length = s.drawPile.length →
      getClientGameState { s with drawPile := l } pid = getClientGameState s pid) := by
  refine ⟨?_, ?_, ?_, ?_, ?_, ?_⟩
  · intro s pid
    simp only [getClientGameState, List.map_map]
    apply List.map_congr_left
    intro p _
    by_cases hp : p.id = pid <;> simp [hp]
  · intro s pid
    simp only [getClientGameState, List.map_map]
    apply List.map_congr_left
    intro p _
    by_cases hp : p.id = pid <;> simp [hp, hideCard, List.map_map, Function.comp]
  · intro s pid p hp hne c hc
    simp only [getClientGameState, List.mem_map] at hp
    obtain ⟨q, hq, hqe⟩ := hp
    by_cases hid : q.id = pid
    · rw [if_neg (by simp [hid])] at hqe
      subst hqe
      exact absurd hid hne
    · rw [if_pos (by simp [hid])] at hqe
      subst hqe
      simp only [List.mem_map] at hc
      obtain ⟨c0, _, hc0⟩ := hc
      subst hc0
      simp [hideCard]
  · intro s pid
    exact ⟨rfl, rfl⟩
  · intro s pid x
    rfl
  · intro s pid l h
    simp only [getClientGameState]
    rw [h]

/-- C7 witness: two states whose draw piles hold different cards of equal
number project identically for p1. -/
theorem C7_projection_hiding_witness :
    getClientGameState { s0cars with drawPile := [carInstC] } "p1" =
      getClientGameState { s0cars with drawPile := [carInstA] } "p1" :=
  C7_projection_hiding.2.2.2.2.2 { s0cars with drawPile := [carInstA] } "p1" [carInstC] rfl

/-- C3 (code bug): when `performPlay` accepts the second car card of a
round — here p2's CAR_A in `s1cars`, with p1's CAR_B already on the
board — the engine resolves the round inside the same call: the resulting
phase is `round_resolved` (never `both_cards_on_board`), the round winner
is already recorded and both car-board slots are already cleared.  The
repository's own test (`should enter both_cards_on_board phase when both
players play cards`) and the orchestrator's scheduled-resolve handler
expect `both_cards_on_board` here instead. -/
theorem C3_no_both_cards_on_board_phase :
    performPlay dbCars s1cars "p2" "u0" {} 1002 = .success s2cars ∧
    s2cars.currentPlayerPhase = .round_resolved ∧
    s2cars.currentPlayerPhase ≠ .both_cards_on_board ∧
    s2cars.roundWinnerId = some "p2" ∧
    mapGetD s2cars.carCardsOnBoard "p1" = none ∧
    mapGetD s2cars.carCardsOnBoard "p2" = none :=
  ⟨rfl, rfl, by decide, rfl, rfl, rfl⟩

/-- C1 counterexample: in the reachable state `t2extra` (p1's extra-turn
action card u3 occupies p1's action-board slot, p1's car is on the board),
p2's successful car play resolves the round and the action-card instance
u3 vanishes: it is in no hand, no slot and no pile of the output state, so
the multiset of instance identifiers is not conserved. -/
theorem C1_actionCardLost_counterexample :
    initializeGame dbExtra ["p1", "p2"] ["P1", "P2"] 3 300 true testUuid 1000 = .ok t0extra ∧
    performPlay dbExtra t0extra "p1" "u3" {} 1001 = .success t1extra ∧
    performPlay dbExtra t1extra "p1" "u2" { selectedMetric := some .speed } 1002 =
      .success t2extra ∧
    performPlay dbExtra t2extra "p2" "u0" {} 1003 = .success t3extra ∧
    ("u3" : String) ∈ allCardIds t2extra ∧
    ("u3" : String) ∉ allCardIds t3extra ∧
    allCardIds t3extra ≠ allCardIds t2extra := by
  refine ⟨rfl, rfl, rfl, rfl, by decide, by decide, ?_⟩
  intro h
  have h2 := congrArg Multiset.card h
  rw [show (allCardIds t3extra).card = 3 from rfl,
    show (allCardIds t2extra).card = 4 from rfl] at h2
  exact absurd h2 (by decide)

/-- C2 counterexample: two independent runs of `initializeGame` with the
same seed and inputs but independent `uuidv4` draws produce different
states (already the game ids differ), so the runs are not byte-identical. -/
theorem C2_not_byte_identical_counterexample :
    initializeGame dbCars ["p1", "p2"] ["P1", "P2"] 1 300 true testUuid 1000 = .ok s0cars ∧
    initializeGame dbCars ["p1", "p2"] ["P1", "P2"] 1 300 true testUuidB 1000 = .ok s0carsB ∧
    s0cars.gameId ≠ s0carsB.gameId ∧
    s0cars ≠ s0carsB :=
  ⟨rfl, rfl, by decide, by decide⟩

/-- C8 counterexample: `checkGameEndConditions` does not guard on an
already-finished status — on the ended state `sEndedTie` (status `tie`,
current player out of car cards in a car-playing phase) it rewrites
the status to `win`, so an engine operation changed the status of a
finished game. -/
theorem C8_status_flip_counterexample :
    sEndedTie.gameStatus = .tie ∧
    checkGameEndConditions [] sEndedTie = .ok sEndedTieOut ∧
    sEndedTieOut.gameStatus = .win ∧
    GameStatus.win ≠ GameStatus.tie :=
  ⟨rfl, rfl, rfl, by decide⟩

theorem checkGameEndConditions_preserves (db : List ICardDefinition) (s s' : IGameState)
    (h : checkGameEndConditions db s = .ok s') :
    s'.players = s.players ∧ s'.carCardsOnBoard = s.carCardsOnBoard ∧
    s'.activeActionCardsOnBoard = s.activeActionCardsOnBoard ∧
    s'.roundWinnerId = s.roundWinnerId ∧ s'.discardPile = s.discardPile ∧
    s'.drawPile = s.drawPile ∧ s'.currentPlayerPhase = s.currentPlayerPhase ∧
    s'.currentPlayerId = s.currentPlayerId ∧
    s'.selectedMetricForRound = s.selectedMetricForRound ∧
    s'.extraTurnPlayerId = s.extraTurnPlayerId ∧ s'.rngSeed = s.rngSeed ∧
    s'.turnTimeLimit = s.turnTimeLimit ∧ s'.currentTurnStartTime = s.currentTurnStartTime ∧
    s'.lastPlayedCardInstanceId = s.lastPlayedCardInstanceId ∧ s'.gameId = s.gameId := by
  unfold checkGameEndConditions at h
  simp only [] at h
  repeat' split at h
  all_goals first
  | (simp only [EngRes.ok.injEq] at h; subst h; simp)
  | simp at h

theorem checkGameEndConditions_status (db : List ICardDefinition) (s s' : IGameState)
    (h : checkGameEndConditions db s = .ok s') :
    s'.gameStatus = s.gameStatus ∨ s'.gameStatus = .win ∨ s'.gameStatus = .tie := by
  unfold checkGameEndConditions at h
  simp only [] at h
  repeat' split at h
  all_goals first
  | (simp only [EngRes.ok.injEq] at h; subst h; simp)
  | simp at h

theorem resolveRound_spec (db : List ICardDefinition) (s s' : IGameState)
    (P1 P2 : IPlayerState) (c1 c2 : ICardInstance) (M1 M2 : CardMetrics) (m : MetricType)
    (hplayers : s.players = [P1, P2]) (hne : P1.id ≠ P2.id)
    (hc1 : mapGetD s.carCardsOnBoard P1.id = some c1)
    (hc2 : mapGetD s.carCardsOnBoard P2.id = some c2)
    (hm : s.selectedMetricForRound = some m)
    (hm1 : c1.currentMetrics = some M1) (hm2 : c2.currentMetrics = some M2)
    (hrun : resolveRound db s = .ok s') :
    s'.roundWinnerId =
      (if m = .weight ∨ m = .accel then
        if M1.get m < M2.get m then some P1.id
        else if M2.get m < M1.get m then some P2.id else none
      else
        if M1.get m > M2.get m then some P1.id
        else if M2.get m > M1.get m then some P2.id else none) ∧
    s'.carCardsOnBoard = [(P1.id, none), (P2.id, none)] ∧
    s'.activeActionCardsOnBoard = [(P1.id, none), (P2.id, none)] ∧
    s'.discardPile = s.discardPile ∧ s'.drawPile = s.drawPile ∧
    (s'.roundWinnerId = some P1.id →
      s'.players = [{ P1 with hand := P1.hand ++ [c1, c2], score := P1.score + 1 }, P2]) ∧
    (s'.roundWinnerId = some P2.id →
      s'.players = [P1, { P2 with hand := P2.hand ++ [c2, c1], score := P2.score + 1 }]) ∧
    (s'.roundWinnerId = none →
      s'.players = [{ P1 with hand := P1.hand ++ [c1] }, { P2 with hand := P2.hand ++ [c2] }]) := by
  have hbne : (P1.id == P2.id) = false := by simpa using hne
  have hbne2 : (P2.id == P1.id) = false := by simpa using (Ne.symm hne)
  unfold resolveRound cardMetricValue at hrun
  rw [hplayers] at hrun
  simp only [List.get?, hc1, hc2, hm, hm1, hm2] at hrun
  have hstep : ∀ (st4 : IGameState), checkGameEndConditions db st4 = .ok s' →
      s'.roundWinnerId = st4.roundWinnerId ∧ s'.carCardsOnBoard = st4.carCardsOnBoard ∧
      s'.activeActionCardsOnBoard = st4.activeActionCardsOnBoard ∧
      s'.discardPile = st4.discardPile ∧ s'.drawPile = st4.drawPile ∧
      s'.players = st4.players := by
    intro st4 hh
    obtain ⟨hpl, hcar, hact, hrw, hdis, hdraw, _, _, _, _, _, _, _, _, _⟩ :=
      checkGameEndConditions_preserves db st4 s' hh
    exact ⟨hrw, hcar, hact, hdis, hdraw, hpl⟩
  by_cases hw : (m = MetricType.weight ∨ m = MetricType.accel)
  · rw [if_pos hw] at hrun ⊢
    by_cases hlt : M1.get m < M2.get m
    · rw [if_pos hlt] at hrun ⊢
      simp only [List.find?, beq_self_eq_true, hbne, hbne2, bne, Bool.not_true, Bool.not_false,
        hc1, hc2, hm1, hm2, updateFirst, eq_self_iff_true, if_true] at hrun
      split at hrun
      all_goals obtain ⟨hrw, hcar, hact, hdis, hdraw, hpl⟩ := hstep _ hrun
      all_goals refine ⟨?_, ?_, ?_, ?_, ?_, ?_, ?_, ?_⟩ <;>
        simp [hrw, hcar, hact, hdis, hdraw, hpl, hne]
    · rw [if_neg hlt] at hrun ⊢
      by_cases hlt2 : M2.get m < M1.get m
      · rw [if_pos hlt2] at hrun ⊢
        simp only [List.find?, beq_self_eq_true, hbne, hbne2, bne, Bool.not_true, Bool.not_false,
          hc1, hc2, hm1, hm2, updateFirst, eq_self_iff_true, if_true, if_neg hne] at hrun
        split at hrun
        all_goals obtain ⟨hrw, hcar, hact, hdis, hdraw, hpl⟩ := hstep _ hrun
        all_goals refine ⟨?_, ?_, ?_, ?_, ?_, ?_, ?_, ?_⟩ <;>
          simp [hrw, hcar, hact, hdis, hdraw, hpl, hne, Ne.symm hne]
      · rw [if_neg hlt2] at hrun ⊢
        simp only [List.set] at hrun
        obtain ⟨hrw, hcar, hact, hdis, hdraw, hpl⟩ := hstep _ hrun
        refine ⟨?_, ?_, ?_, ?_, ?_, ?_, ?_, ?_⟩ <;>
          simp [hrw, hcar, hact, hdis, hdraw, hpl, hne, Ne.symm hne]
  · rw [if_neg hw] at hrun ⊢
    by_cases hgt : M1.get m > M2.get m
    · rw [if_pos hgt] at hrun ⊢
      simp only [List.find?, beq_self_eq_true, hbne, hbne2, bne, Bool.not_true, Bool.not_false,
        hc1, hc2, hm1, hm2, updateFirst, eq_self_iff_true, if_true] at hrun
      split at hrun
      all_goals obtain ⟨hrw, hcar, hact, hdis, hdraw, hpl⟩ := hstep _ hrun
      all_goals refine ⟨?_, ?_, ?_, ?_, ?_, ?_, ?_, ?_⟩ <;>
        simp [hrw, hcar, hact, hdis, hdraw, hpl, hne]
    · rw [if_neg hgt] at hrun ⊢
      by_cases hgt2 : M2.get m > M1.get m
      · rw [if_pos hgt2] at hrun ⊢
        simp only [List.find?, beq_self_eq_true, hbne, hbne2, bne, Bool.not_true, Bool.not_false,
          hc1, hc2, hm1, hm2, updateFirst, eq_self_iff_true, if_true, if_neg hne] at hrun
        split at hrun
        all_goals obtain ⟨hrw, hcar, hact, hdis, hdraw, hpl⟩ := hstep _ hrun
        all_goals refine ⟨?_, ?_, ?_, ?_, ?_, ?_, ?_, ?_⟩ <;>
          simp [hrw, hcar, hact, hdis, hdraw, hpl, hne, Ne.symm hne]
      · rw [if_neg hgt2] at hrun ⊢
        simp only [List.set] at hrun
        obtain ⟨hrw, hcar, hact, hdis, hdraw, hpl⟩ := hstep _ hrun
        refine ⟨?_, ?_, ?_, ?_, ?_, ?_, ?_, ?_⟩ <;>
          simp [hrw, hcar, hact, hdis, hdraw, hpl, hne, Ne.symm hne]

/-- C4: on a state with both car-board slots occupied and a selected
metric, `resolveRound` compares the chosen metric with lower-wins
semantics for `weight`/`accel` and higher-wins otherwise; on a strict win
both cars are appended to the winner's hand and the winner's score grows
by exactly 1 (the other player untouched); on a tie `roundWinnerId` is
null and each car returns to the hand of the player whose slot held it;
in all cases both car-board slots and both action-board slots are
cleared. -/
theorem C4_resolveRound_semantics (db : List ICardDefinition) (s s' : IGameState)
    (P1 P2 : IPlayerState) (c1 c2 : ICardInstance) (M1 M2 : CardMetrics) (m : MetricType)
    (hplayers : s.players = [P1, P2]) (hne : P1.id ≠ P2.id)
    (hc1 : mapGetD s.carCardsOnBoard P1.id = some c1)
    (hc2 : mapGetD s.carCardsOnBoard P2.id = some c2)
    (hm : s.selectedMetricForRound = some m)
    (hm1 : c1.currentMetrics = some M1) (hm2 : c2.currentMetrics = some M2)
    (hrun : resolveRound db s = .ok s') :
    s'.roundWinnerId =
      (if m = .weight ∨ m = .accel then
        if M1.get m < M2.get m then some P1.id
        else if M2.get m < M1.get m then some P2.id else none
      else
        if M1.get m > M2.get m then some P1.id
        else if M2.get m > M1.get m then some P2.id else none) ∧
    s'.carCardsOnBoard = [(P1.id, none), (P2.id, none)] ∧
    s'.activeActionCardsOnBoard = [(P1.id, none), (P2.id, none)] ∧
    (s'.roundWinnerId = some P1.id →
      s'.players = [{ P1 with hand := P1.hand ++ [c1, c2], score := P1.score + 1 }, P2]) ∧
    (s'.roundWinnerId = some P2.id →
      s'.players = [P1, { P2 with hand := P2.hand ++ [c2, c1], score := P2.score + 1 }]) ∧
    (s'.roundWinnerId = none →
      s'.players = [{ P1 with hand := P1.hand ++ [c1] }, { P2 with hand := P2.hand ++ [c2] }]) := by
  obtain ⟨h1, h2, h3, _, _, h6, h7, h8⟩ :=
    resolveRound_spec db s s' P1 P2 c1 c2 M1 M2 m hplayers hne hc1 hc2 hm hm1 hm2 hrun
  exact ⟨h1, h2, h3, h6, h7, h8⟩

/-- C4 witness: CAR_A (speed 200) vs CAR_C (speed 220) on metric `speed`:
p2 wins, takes both cards, score 2 → 3, and the board is cleared. -/
theorem C4_resolveRound_semantics_witness :
    sResolveWOut.roundWinnerId = some "p2" ∧
    sResolveWOut.carCardsOnBoard = [("p1", none), ("p2", none)] ∧
    sResolveWOut.activeActionCardsOnBoard = [("p1", none), ("p2", none)] := by
  have h := C4_resolveRound_semantics dbPerm sResolveW sResolveWOut
    { id := "p1", name := "P1", hand := [], score := 0 }
    { id := "p2", name := "P2", hand := [carInstA], score := 2 }
    { instanceId := "w-a", cardId := "CAR_A", currentMetrics := carA.metrics,
      originalMetrics := carA.metrics }
    { instanceId := "w-c", cardId := "CAR_C", currentMetrics := carC.metrics,
      originalMetrics := carC.metrics }
    { speed := 200, hp := 300, accel := 5, weight := 1500, year := 2001 }
    { speed := 220, hp := 333, accel := 4, weight := 1400, year := 2005 }
    MetricType.speed rfl (by decide) rfl rfl rfl rfl rfl rfl
  refine ⟨?_, h.2.1, h.2.2.1⟩
  rw [h.1]
  decide

theorem mapGetD_mapSet_self {α : Type} (m : List (String × Option α)) (k : String)
    (v : Option α) : mapGetD (mapSet m k v) k = v := by
  induction m with
  | nil => simp [mapSet, mapGetD]
  | cons e rest ih =>
    by_cases h : e.1 = k
    · simp [mapSet, mapGetD, h]
    · simp [mapSet, mapGetD, h, ih]

theorem mapGetD_mapSet_ne {α : Type} (m : List (String × Option α)) (k k' : String)
    (v : Option α) (h : k' ≠ k) : mapGetD (mapSet m k v) k' = mapGetD m k' := by
  induction m with
  | nil => simp [mapSet, mapGetD, Ne.symm h]
  | cons e rest ih =>
    by_cases he : e.1 = k
    · simp [mapSet, mapGetD, he, Ne.symm h]
    · by_cases he2 : e.1 = k'
      · simp [mapSet, mapGetD, he, he2, h]
      · simp [mapSet, mapGetD, he, he2, ih]

/-- `performPlayFinish` when the opponent has no car on the board: no
round resolution happens and the car board of the output is that of the
input. -/
theorem performPlayFinish_noResolve_carBoard (db : List ICardDefinition) (st : IGameState)
    (pid oppId : String) (now : ℤ) (s' : IGameState)
    (hopp : mapGetD st.carCardsOnBoard oppId = none)
    (hrun : performPlayFinish db st pid oppId now = .success s') :
    s'.carCardsOnBoard = st.carCardsOnBoard := by
  unfold performPlayFinish at hrun
  rw [if_neg (by simp [hopp])] at hrun
  simp only [] at hrun
  split at hrun
  · simp at hrun
  · rename_i st3 hg
    have hp := (checkGameEndConditions_preserves db st st3 hg).2.1
    split at hrun
    · split at hrun
      · simp at hrun
      · rename_i opp hfind
        split at hrun
        · simp only [PlayOutcome.success.injEq] at hrun
          subst hrun
          simpa using hp
        · simp only [PlayOutcome.success.injEq] at hrun
          subst hrun
          exact hp
    · simp only [PlayOutcome.success.injEq] at hrun
      subst hrun
      exact hp

/-- The car branch of `performPlay` with a pending `metric_mod_temp` or
`metric_mod_perm` modifier: the played card's designated metric is
recomputed from `originalMetrics` and rounded via `Math.round`, the
permanent flag is set for permanent modifications, the modifier is
cleared, and the modified card is placed on the board. -/
theorem performPlayCarBranch_metricMod (db : List ICardDefinition) (st : IGameState)
    (pid : String) (card : ICardInstance) (cardDef : ICardDefinition) (payload : PlayPayload)
    (nm : String) (pm : PendingModifier) (ac : ICardInstance) (acDef : ICardDefinition)
    (CM OM : CardMetrics) (tm m0 : MetricType)
    (hpm : mapGetD st.pendingMetricModifiers pid = some pm)
    (hac : mapGetD st.activeActionCardsOnBoard pm.sourcePlayerId = some ac)
    (hacDef : getCardDefinition db ac.cardId = some acDef)
    (hcm : card.currentMetrics = some CM)
    (hom : card.originalMetrics = some OM)
    (htype : pm.effect.type = .metric_mod_temp ∨ pm.effect.type = .metric_mod_perm)
    (htm : pm.effect.targetMetric = some tm)
    (hsel : st.selectedMetricForRound = some m0) :
    performPlayCarBranch db st pid card cardDef payload nm =
      .success { st with
        gameLog := st.gameLog ++
          ["A(z) '" ++ acDef.name ++ "' hatása érvényesült a(z) '" ++ cardDef.name ++
           "' kártyán (" ++ metricName tm ++ " módosítva)."],
        pendingMetricModifiers := mapSet st.pendingMetricModifiers pid none,
        carCardsOnBoard := mapSet st.carCardsOnBoard pid (some
          { card with
            currentMetrics := some (CM.set tm (jsRound
              (if pm.effect.modifierType = some ModifierType.percentage then
                OM.get tm * (1 + pm.effect.value.getD 0 / 100)
              else OM.get tm + pm.effect.value.getD 0))),
            isModifiedPermanently :=
              if pm.effect.type = .metric_mod_perm then some true
              else card.isModifiedPermanently }),
        lastPlayedCardInstanceId := some card.instanceId,
        currentPlayerPhase := .turn_ended } := by
  unfold performPlayCarBranch
  simp only [hpm, hac, hacDef, hcm, hom, htm, hsel, if_pos htype, Option.getD_some]
  simp

/-- General form: a successful `performPlay` of a car card by a player
holding a pending metric modifier leaves on that player's car-board slot
the played card with its designated metric recomputed from
`originalMetrics` (percentage: `orig * (1 + value/100)`, absolute:
`orig + value`), rounded by `Math.round`, and the permanent flag set for
`metric_mod_perm`. -/
theorem performPlay_pendingMetricMod_spec (db : List ICardDefinition) (s : IGameState)
    (pid cid : String) (payload : PlayPayload) (now : ℤ) (s' : IGameState)
    (player opp : IPlayerState) (idx : ℕ) (card : ICardInstance) (cardDef : ICardDefinition)
    (pm : PendingModifier) (ac : ICardInstance) (acDef : ICardDefinition)
    (CM OM : CardMetrics) (tm m0 : MetricType)
    (hval : isValidPlay db s pid cid payload = .ok { isValid := true, message := none })
    (hfind : s.players.find? (fun p => p.id == pid) = some player)
    (hfopp : s.players.find? (fun p => p.id != pid) = some opp)
    (hidx : player.hand.findIdx? (fun c => c.instanceId == cid) = some idx)
    (hget : player.hand.get? idx = some card)
    (hdef : getCardDefinition db card.cardId = some cardDef)
    (hcar : cardDef.type = .car)
    (hpm : mapGetD s.pendingMetricModifiers pid = some pm)
    (hac : mapGetD s.activeActionCardsOnBoard pm.sourcePlayerId = some ac)
    (hacDef : getCardDefinition db ac.cardId = some acDef)
    (hcm : card.currentMetrics = some CM)
    (hom : card.originalMetrics = some OM)
    (htype : pm.effect.type = .metric_mod_temp ∨ pm.effect.type = .metric_mod_perm)
    (htm : pm.effect.targetMetric = some tm)
    (hsel : s.selectedMetricForRound = some m0)
    (hopp : mapGetD s.carCardsOnBoard opp.id = none)
    (hrun : performPlay db s pid cid payload now = .success s') :
    mapGetD s'.carCardsOnBoard pid = some
      { card with
        currentMetrics := some (CM.set tm (jsRound
          (if pm.effect.modifierType = some ModifierType.percentage then
            OM.get tm * (1 + pm.effect.value.getD 0 / 100)
          else OM.get tm + pm.effect.value.getD 0))),
        isModifiedPermanently :=
          if pm.effect.type = .metric_mod_perm then some true
          else card.isModifiedPermanently } := by
  have hoppne : opp.id ≠ pid := by
    have := List.find?_some hfopp
    simpa using this
  unfold performPlay at hrun
  simp only [hval, hfind, hfopp, hidx, hget, hdef] at hrun
  rw [if_neg (by simp)] at hrun
  rw [if_neg (by simp [hcar])] at hrun
  rw [performPlayCarBranch_metricMod db
    { s with players := updateFirst s.players pid fun p => { p with hand := p.hand.eraseIdx idx } }
    pid card cardDef payload player.name pm ac acDef CM OM
    tm m0 hpm hac hacDef hcm hom htype htm hsel] at hrun
  simp only [] at hrun
  have hfin := performPlayFinish_noResolve_carBoard db _ pid opp.id now s'
    (by
      show mapGetD (mapSet s.carCardsOnBoard pid _) opp.id = none
      rw [mapGetD_mapSet_ne _ _ _ _ hoppne]
      exact hopp) hrun
  rw [hfin]
  show mapGetD (mapSet s.carCardsOnBoard pid _) pid = _
  rw [mapGetD_mapSet_self]

theorem jsRound_eval (q : ℚ) (z : ℤ) (h1 : (z : ℚ) ≤ q + 1 / 2) (h2 : q + 1 / 2 < z + 1) :
    jsRound q = z := by
  unfold jsRound
  have h : (q + 1 / 2).floor = ⌊(q + 1 / 2)⌋ := rfl
  rw [h, show ⌊(q + 1 / 2)⌋ = z by rw [Int.floor_eq_iff]; exact ⟨h1, by exact_mod_cast h2⟩]

/-- C5 counterexample: the engine stores `Math.round`-ed metric values,
not the exact formula value.  Playing CAR_C (original hp `333`) into a
pending `+20%` temporary HP modifier yields `currentMetrics.hp = 400`,
whereas the claim's exact formula gives `333 * (1 + 20/100) = 399.6`. -/
theorem C5_rounding_counterexample :
    performPlay dbTemp sTempPending "p1" "i-c" {} 1004 = .success s5temp ∧
    (mapGetD s5temp.carCardsOnBoard "p1").map
      (fun c => (c.currentMetrics.map (fun M => M.hp), c.isModifiedPermanently)) =
      some (some 400, none) ∧
    (400 : ℚ) ≠ 333 * (1 + 20 / 100) := by
  refine ⟨rfl, ?_, by norm_num⟩
  have h := performPlay_pendingMetricMod_spec dbTemp sTempPending "p1" "i-c" {} 1004 s5temp
    { id := "p1", name := "P1", hand := [carInstC], score := 0 }
    { id := "p2", name := "P2", hand := [carInstA], score := 0 }
    0 carInstC carC
    { sourcePlayerId := "p1", actionCardInstanceId := "i-act", effect := tempHpEffect }
    actionInstTemp
    { id := "ACTION_HP_BOOST_TEMP", name := "Turbó Feltöltés", type := .action,
      description := "+20% HP (ideiglenes)", actionEffect := some tempHpEffect }
    { speed := 220, hp := 333, accel := 4, weight := 1400, year := 2005 }
    { speed := 220, hp := 333, accel := 4, weight := 1400, year := 2005 }
    MetricType.hp MetricType.hp
    rfl rfl rfl rfl rfl rfl rfl rfl rfl rfl rfl rfl (Or.inl rfl) rfl rfl rfl rfl
  rw [h]
  simp only [Option.map_some']
  rw [show jsRound
      (if ({ sourcePlayerId := "p1", actionCardInstanceId := "i-act",
             effect := tempHpEffect } : PendingModifier).effect.modifierType =
          some ModifierType.percentage then
        ({ speed := 220, hp := 333, accel := 4, weight := 1400,
           year := 2005 } : CardMetrics).get MetricType.hp *
          (1 + ({ sourcePlayerId := "p1", actionCardInstanceId := "i-act",
                  effect := tempHpEffect } : PendingModifier).effect.value.getD 0 / 100)
      else
        ({ speed := 220, hp := 333, accel := 4, weight := 1400,
           year := 2005 } : CardMetrics).get MetricType.hp +
          ({ sourcePlayerId := "p1", actionCardInstanceId := "i-act",
             effect := tempHpEffect } : PendingModifier).effect.value.getD 0) = 400 from
    jsRound_eval _ 400 (by norm_num [tempHpEffect, CardMetrics.get])
      (by norm_num [tempHpEffect, CardMetrics.get])]
  simp [tempHpEffect, CardMetrics.set, carInstC]

theorem performPlayActionBranch_status (st : IGameState) (pid : String) (opp : IPlayerState)
    (card : ICardInstance) (cardDef : ICardDefinition) (nm : String) (st2 : IGameState)
    (h : performPlayActionBranch st pid opp card cardDef nm = .success st2) :
    st2.gameStatus = st.gameStatus := by
  unfold performPlayActionBranch at h
  simp only [] at h
  repeat' split at h
  all_goals first
  | (simp only [PlayOutcome.success.injEq] at h; subst h; simp)
  | simp at h

theorem performPlayCarBranch_status (db : List ICardDefinition) (st : IGameState) (pid : String)
    (card : ICardInstance) (cardDef : ICardDefinition) (payload : PlayPayload) (nm : String)
    (st2 : IGameState)
    (h : performPlayCarBranch db st pid card cardDef payload nm = .success st2) :
    st2.gameStatus = st.gameStatus := by
  unfold performPlayCarBranch at h
  simp only [] at h
  split at h
  · simp at h
  · rename_i c1 st1 heq
    have hst1 : st1.gameStatus = st.gameStatus := by
      repeat' split at heq
      all_goals first
      | (simp only [EngRes.ok.injEq, Prod.mk.injEq] at heq
         obtain ⟨h1, h2⟩ := heq
         subst h2
         first
         | (simp; done)
         | (rename_i c9 st9 heq9
            repeat' split at heq9
            all_goals first
            | (simp only [EngRes.ok.injEq, Prod.mk.injEq] at heq9
               obtain ⟨h3, h4⟩ := heq9
               subst h4
               simp
               done)
            | simp at heq9))
      | simp at heq
    split at h
    · rename_i st3 heq2
      simp only [PlayOutcome.success.injEq] at h
      subst h
      have hst3 : st3.gameStatus = st1.gameStatus := by
        repeat' split at heq2
        all_goals first
        | (simp only [PlayOutcome.success.injEq] at heq2; subst heq2; simp)
        | simp at heq2
      simp [hst3, hst1]
    · rename_i other hno heq2
      repeat' split at heq2
      all_goals simp_all

theorem resolveRound_status (db : List ICardDefinition) (s s' : IGameState)
    (h : resolveRound db s = .ok s') :
    s'.gameStatus = s.gameStatus ∨ s'.gameStatus = .win ∨ s'.gameStatus = .tie := by
  unfold resolveRound at h
  simp only [] at h
  split at h
  case h_2 => simp at h
  split at h
  case h_2 => simp at h
  split at h
  case h_2 => simp at h
  case h_3 => simp at h
  split at h
  case h_1 => simp at h
  case h_2 =>
    rename_i st3 message heq
    have h3 : st3.gameStatus = s.gameStatus := by
      repeat' split at heq
      all_goals first
      | (simp only [EngRes.ok.injEq, Prod.mk.injEq] at heq
         obtain ⟨h1, h2⟩ := heq
         subst h1
         simp
         done)
      | simp at heq
    rcases checkGameEndConditions_status db _ s' h with h1 | h1 | h1
    · left
      rw [h1]
      simpa using h3
    · right; left; exact h1
    · right; right; exact h1

theorem performPlayFinish_status (db : List ICardDefinition) (st : IGameState)
    (pid oid : String) (now : ℤ) (s2 : IGameState)
    (h : performPlayFinish db st pid oid now = .success s2) :
    s2.gameStatus = st.gameStatus ∨ s2.gameStatus = .win ∨ s2.gameStatus = .tie := by
  unfold performPlayFinish at h
  simp only [] at h
  split at h
  case h_2 =>
    rename_i hno heq
    repeat' split at heq
    all_goals simp_all
  case h_1 =>
    rename_i st2 heq
    have h2 : st2.gameStatus = st.gameStatus ∨ st2.gameStatus = .win ∨ st2.gameStatus = .tie := by
      split at heq
      · split at heq
        · simp at heq
        · rename_i r heqR
          have hr := resolveRound_status db st r heqR
          split at heq
          all_goals (simp only [PlayOutcome.success.injEq] at heq; subst heq; simpa using hr)
      · simp only [PlayOutcome.success.injEq] at heq
        subst heq
        exact Or.inl rfl
    split at h
    case h_1 => simp at h
    case h_2 =>
      rename_i st3 heq3
      have h4 := checkGameEndConditions_status db st2 st3 heq3
      have hst3 : st3.gameStatus = st.gameStatus ∨ st3.gameStatus = .win ∨ st3.gameStatus = .tie := by
        rcases h4 with a | a | a
        · rw [a]; exact h2
        · exact Or.inr (Or.inl a)
        · exact Or.inr (Or.inr a)
      repeat' split at h
      all_goals first
      | (simp only [PlayOutcome.success.injEq] at h; subst h; simpa using hst3)
      | simp at h

theorem performPlay_status (db : List ICardDefinition) (s : IGameState)
    (pid cid : String) (payload : PlayPayload) (now : ℤ) (s' : IGameState)
    (h : performPlay db s pid cid payload now = .success s') :
    s'.gameStatus = s.gameStatus ∨ s'.gameStatus = .win ∨ s'.gameStatus = .tie := by
  unfold performPlay at h
  simp only [] at h
  split at h
  case h_1 => simp at h
  case h_2 =>
    rename_i validation heqv
    split at h
    · simp at h
    · split at h
      case h_1 => simp at h
      case h_2 =>
        rename_i player heqp
        split at h
        case h_1 => simp at h
        case h_2 =>
          rename_i opponent heqo
          split at h
          case h_1 => simp at h
          case h_2 =>
            rename_i cardIndex heqi
            split at h
            case h_1 => simp at h
            case h_2 =>
              rename_i cardInstance heqc
              split at h
              case h_1 => simp at h
              case h_2 =>
                rename_i cardDef heqd
                split at h
                case h_2 =>
                  rename_i other hno heqb
                  repeat' split at heqb
                  all_goals simp_all
                case h_1 =>
                  rename_i st2 heqb
                  have hb : st2.gameStatus = s.gameStatus := by
                    split at heqb
                    · have := performPlayActionBranch_status _ pid opponent cardInstance cardDef player.name st2 heqb
                      simpa using this
                    · have := performPlayCarBranch_status db _ pid cardInstance cardDef payload player.name st2 heqb
                      simpa using this
                  have hfin := performPlayFinish_status db st2 pid opponent.id now s' h
                  rcases hfin with a | a | a
                  · exact Or.inl (a.trans hb)
                  · exact Or.inr (Or.inl a)
                  · exact Or.inr (Or.inr a)

/-- C8 (amended): Once a game has ended, no engine operation ever returns its
status to `playing`.  `advanceTurn` and `endGameByTimeout` return an ended
state unchanged; `checkGameEndConditions`, `resolveRound` and `performPlay`
always produce a status in `{input status, win, tie}` on success — so a
finished game never becomes `playing` again, although (as the counterexample
shows) `checkGameEndConditions` may still rewrite `tie` to `win` on an
already-ended state. -/
theorem C8_status_monotonicity_amended :
    (∀ (st : IGameState) (w : Option String) (now : ℤ),
       st.gameStatus ≠ .playing → advanceTurn st w now = .ok st) ∧
    (∀ (st : IGameState) (pid : String),
       st.gameStatus ≠ .playing → endGameByTimeout st pid = .ok st) ∧
    (∀ (db : List ICardDefinition) (st st' : IGameState),
       checkGameEndConditions db st = .ok st' →
       st'.gameStatus = st.gameStatus ∨ st'.gameStatus = .win ∨ st'.gameStatus = .tie) ∧
    (∀ (db : List ICardDefinition) (st st' : IGameState),
       resolveRound db st = .ok st' →
       st'.gameStatus = st.gameStatus ∨ st'.gameStatus = .win ∨ st'.gameStatus = .tie) ∧
    (∀ (db : List ICardDefinition) (st : IGameState) (pid cid : String)
       (payload : PlayPayload) (now : ℤ) (st' : IGameState),
       performPlay db st pid cid payload now = .success st' →
       st'.gameStatus = st.gameStatus ∨ st'.gameStatus = .win ∨ st'.gameStatus = .tie) := by
  refine ⟨?_, ?_, ?_, ?_, ?_⟩
  · intro st w now h
    unfold advanceTurn
    rw [if_pos h]
  · intro st pid h
    unfold endGameByTimeout
    rw [if_pos h]
  · intro db st st' h
    exact checkGameEndConditions_status db st st' h
  · intro db st st' h
    exact resolveRound_status db st st' h
  · intro db st pid cid payload now st' h
    exact performPlay_status db st pid cid payload now st' h

theorem C8_status_monotonicity_amended_witness :
    (sEndedTie.gameStatus ≠ GameStatus.playing ∧
      advanceTurn sEndedTie none 0 = .ok sEndedTie ∧
      endGameByTimeout sEndedTie "p1" = .ok sEndedTie) ∧
    (checkGameEndConditions [] sEndedTie = .ok sEndedTieOut ∧
      (sEndedTieOut.gameStatus = sEndedTie.gameStatus ∨
       sEndedTieOut.gameStatus = .win ∨ sEndedTieOut.gameStatus = .tie)) ∧
    (resolveRound dbPerm sResolveW = .ok sResolveWOut ∧
      (sResolveWOut.gameStatus = sResolveW.gameStatus ∨
       sResolveWOut.gameStatus = .win ∨ sResolveWOut.gameStatus = .tie)) ∧
    (performPlay dbCars s0cars "p1" "u1" { selectedMetric := some .hp } 1001 = .success s1cars ∧
      (s1cars.gameStatus = s0cars.gameStatus ∨
       s1cars.gameStatus = .win ∨ s1cars.gameStatus = .tie)) :=
  ⟨⟨by decide,
    C8_status_monotonicity_amended.1 sEndedTie none 0 (by decide),
    C8_status_monotonicity_amended.2.1 sEndedTie "p1" (by decide)⟩,
   ⟨rfl, C8_status_monotonicity_amended.2.2.1 [] sEndedTie sEndedTieOut rfl⟩,
   ⟨rfl, C8_status_monotonicity_amended.2.2.2.1 dbPerm sResolveW sResolveWOut rfl⟩,
   ⟨rfl, C8_status_monotonicity_amended.2.2.2.2 dbCars s0cars "p1" "u1"
      { selectedMetric := some .hp } 1001 s1cars rfl⟩⟩

theorem swapIdx_map {α β : Type} (f : α → β) (l : List α) (i j : ℕ) :
    swapIdx (l.map f) i j = (swapIdx l i j).map f := by
  unfold swapIdx
  rw [List.get?_map, List.get?_map]
  cases h1 : l.get? i <;> cases h2 : l.get? j <;> simp [List.map_set]

theorem rngShuffleGo_map {α β : Type} (f : α → β) :
    ∀ (n : ℕ) (r : DeterministicRNG) (arr : List α),
      rngShuffleGo n r (arr.map f) =
        ((rngShuffleGo n r arr).1.map f, (rngShuffleGo n r arr).2) := by
  intro n
  induction n with
  | zero => intro r arr; rfl
  | succ i ih =>
    intro r arr
    simp only [rngShuffleGo]
    rw [swapIdx_map, ih]

theorem rngShuffle_map {α β : Type} (f : α → β) (r : DeterministicRNG) (arr : List α) :
    rngShuffle r (arr.map f) = ((rngShuffle r arr).1.map f, (rngShuffle r arr).2) := by
  unfold rngShuffle
  rw [List.length_map, rngShuffleGo_map]

theorem dealPass_strip (ps : List IPlayerState) (deck : List ICardInstance) :
    dealPass (ps.map stripPlayer) (deck.map stripInstance) =
      ((dealPass ps deck).1.map stripPlayer, (dealPass ps deck).2.map stripInstance) := by
  induction ps generalizing deck with
  | nil => simp [dealPass]
  | cons p ps ih =>
    cases deck with
    | nil =>
      have h0 := ih []
      simp only [List.map_nil] at h0
      simp [dealPass, h0]
    | cons c cs =>
      have h0 := ih cs
      simp only [List.map_cons, dealPass, h0]
      simp [stripPlayer]

theorem dealCards_strip (n : ℕ) (ps : List IPlayerState) (deck : List ICardInstance) :
    dealCards n (ps.map stripPlayer) (deck.map stripInstance) =
      ((dealCards n ps deck).1.map stripPlayer, (dealCards n ps deck).2.map stripInstance) := by
  induction n generalizing ps deck with
  | zero => simp [dealCards]
  | succ m ih =>
    simp only [dealCards]
    rw [dealPass_strip]
    exact ih _ _

theorem find?_map_stripPlayer (ps : List IPlayerState) (sid : String) :
    (ps.map stripPlayer).find? (fun p => p.id == sid) =
      (ps.find? (fun p => p.id == sid)).map stripPlayer := by
  rw [List.find?_map]
  rfl

/-- Two instantiations of the deck that differ only in the uuid stream
produce strip-equal dealt hands and draw piles. -/
theorem init_deal_strip (raw : List ICardDefinition) (r : DeterministicRNG)
    (ps : List IPlayerState) (u1 u2 : ℕ → String) :
    (dealCards 7 ps (rngShuffle r (raw.enum.map (fun e =>
        ({ instanceId := u1 e.1, cardId := e.2.id,
           currentMetrics := if isCarCardDef e.2 then e.2.metrics else none,
           originalMetrics := if isCarCardDef e.2 then e.2.metrics else none } :
          ICardInstance)))).1).1.map stripPlayer =
      (dealCards 7 ps (rngShuffle r (raw.enum.map (fun e =>
        ({ instanceId := u2 e.1, cardId := e.2.id,
           currentMetrics := if isCarCardDef e.2 then e.2.metrics else none,
           originalMetrics := if isCarCardDef e.2 then e.2.metrics else none } :
          ICardInstance)))).1).1.map stripPlayer ∧
    (dealCards 7 ps (rngShuffle r (raw.enum.map (fun e =>
        ({ instanceId := u1 e.1, cardId := e.2.id,
           currentMetrics := if isCarCardDef e.2 then e.2.metrics else none,
           originalMetrics := if isCarCardDef e.2 then e.2.metrics else none } :
          ICardInstance)))).1).2.map stripInstance =
      (dealCards 7 ps (rngShuffle r (raw.enum.map (fun e =>
        ({ instanceId := u2 e.1, cardId := e.2.id,
           currentMetrics := if isCarCardDef e.2 then e.2.metrics else none,
           originalMetrics := if isCarCardDef e.2 then e.2.metrics else none } :
          ICardInstance)))).1).2.map stripInstance := by
  have hI : (raw.enum.map (fun e =>
        ({ instanceId := u1 e.1, cardId := e.2.id,
           currentMetrics := if isCarCardDef e.2 then e.2.metrics else none,
           originalMetrics := if isCarCardDef e.2 then e.2.metrics else none } :
          ICardInstance))).map stripInstance =
      (raw.enum.map (fun e =>
        ({ instanceId := u2 e.1, cardId := e.2.id,
           currentMetrics := if isCarCardDef e.2 then e.2.metrics else none,
           originalMetrics := if isCarCardDef e.2 then e.2.metrics else none } :
          ICardInstance))).map stripInstance := by
    simp only [List.map_map]
    rfl
  have hD : ((rngShuffle r (raw.enum.map (fun e =>
        ({ instanceId := u1 e.1, cardId := e.2.id,
           currentMetrics := if isCarCardDef e.2 then e.2.metrics else none,
           originalMetrics := if isCarCardDef e.2 then e.2.metrics else none } :
          ICardInstance)))).1).map stripInstance =
      ((rngShuffle r (raw.enum.map (fun e =>
        ({ instanceId := u2 e.1, cardId := e.2.id,
           currentMetrics := if isCarCardDef e.2 then e.2.metrics else none,
           originalMetrics := if isCarCardDef e.2 then e.2.metrics else none } :
          ICardInstance)))).1).map stripInstance := by
    have a1 := rngShuffle_map stripInstance r (raw.enum.map (fun e =>
        ({ instanceId := u1 e.1, cardId := e.2.id,
           currentMetrics := if isCarCardDef e.2 then e.2.metrics else none,
           originalMetrics := if isCarCardDef e.2 then e.2.metrics else none } :
          ICardInstance)))
    have a2 := rngShuffle_map stripInstance r (raw.enum.map (fun e =>
        ({ instanceId := u2 e.1, cardId := e.2.id,
           currentMetrics := if isCarCardDef e.2 then e.2.metrics else none,
           originalMetrics := if isCarCardDef e.2 then e.2.metrics else none } :
          ICardInstance)))
    have b1 := congrArg Prod.fst a1
    have b2 := congrArg Prod.fst a2
    simp only [] at b1 b2
    rw [← b1, ← b2, hI]
  have hDeal1 := dealCards_strip 7 ps (rngShuffle r (raw.enum.map (fun e =>
        ({ instanceId := u1 e.1, cardId := e.2.id,
           currentMetrics := if isCarCardDef e.2 then e.2.metrics else none,
           originalMetrics := if isCarCardDef e.2 then e.2.metrics else none } :
          ICardInstance)))).1
  have hDeal2 := dealCards_strip 7 ps (rngShuffle r (raw.enum.map (fun e =>
        ({ instanceId := u2 e.1, cardId := e.2.id,
           currentMetrics := if isCarCardDef e.2 then e.2.metrics else none,
           originalMetrics := if isCarCardDef e.2 then e.2.metrics else none } :
          ICardInstance)))).1
  rw [hD] at hDeal1
  have hBoth := hDeal1.symm.trans hDeal2
  exact ⟨congrArg Prod.fst hBoth, congrArg Prod.snd hBoth⟩

/-- C2 (amended): with the same seed the deck composition, shuffle order,
dealt hands and all gameplay-relevant state agree between two runs of
`initializeGame`; only the fields taken from `uuidv4()` and `Date.now()`
outside the seeded generator (the game id, the card instance ids and the
turn start time) may differ, i.e. the two resulting states are equal after
`stripState`. -/
theorem C2_determinism_amended (db : List ICardDefinition) (ids names : List String)
    (seed : ℤ) (t : ℚ) (b : Bool) (u1 u2 : ℕ → String) (n1 n2 : ℤ) (s1 s2 : IGameState)
    (h1 : initializeGame db ids names seed t b u1 n1 = .ok s1)
    (h2 : initializeGame db ids names seed t b u2 n2 = .ok s2) :
    stripState s1 = stripState s2 := by
  unfold initializeGame at h1 h2
  simp only [] at h1 h2
  split at h1
  case isTrue => simp at h1
  case isFalse =>
    rename_i hc
    rw [if_neg hc] at h2
    split at h1
    case h_1 => simp at h1
    case h_2 =>
      rename_i sp1 heqf1
      split at h2
      case h_1 => simp at h2
      case h_2 =>
        rename_i sp2 heqf2
        simp only [EngRes.ok.injEq] at h1 h2
        subst h1
        subst h2
        obtain ⟨A, B⟩ := init_deal_strip
          ((rngShuffle ⟨seed⟩ (db.filter fun d => isCarCardDef d)).1.take
              (min 20 (db.filter fun d => isCarCardDef d).length) ++
            (rngShuffle (rngShuffle ⟨seed⟩ (db.filter fun d => isCarCardDef d)).2
                (db.filter fun d => isActionCardDef d)).1.take
              (min 5 (db.filter fun d => isActionCardDef d).length))
          ((rngShuffle (rngShuffle ⟨seed⟩ (db.filter fun d => isCarCardDef d)).2
              (db.filter fun d => isActionCardDef d)).2)
          (ids.enum.map fun e =>
            ({ id := e.2, name := names.getD e.1 "undefined", hand := [], score := 0 } :
              IPlayerState))
          u1 u2
        have hsp := congrArg
          (fun l => List.find? (fun p => p.id == ids.getD 0 "undefined") l) A
        simp only [] at hsp
        rw [find?_map_stripPlayer, find?_map_stripPlayer, heqf1, heqf2] at hsp
        simp only [Option.map_some'] at hsp
        rw [Option.some.injEq] at hsp
        have hname : sp1.name = sp2.name := by
          have hn := congrArg IPlayerState.name hsp
          simpa [stripPlayer] using hn
        simp only [stripState]
        congr 1
        all_goals first
        | rw [hname]
        | exact B
        | exact A

theorem C2_determinism_amended_witness :
    initializeGame dbCars ["p1", "p2"] ["P1", "P2"] 1 300 true testUuid 1000 = .ok s0cars ∧
    initializeGame dbCars ["p1", "p2"] ["P1", "P2"] 1 300 true testUuidB 1000 = .ok s0carsB ∧
    stripState s0cars = stripState s0carsB :=
  ⟨rfl, rfl,
   C2_determinism_amended dbCars ["p1", "p2"] ["P1", "P2"] 1 300 true testUuid testUuidB
     1000 1000 s0cars s0carsB rfl rfl⟩

theorem advanceTurn_cards (s : IGameState) (w : Option String) (now : ℤ) (s' : IGameState)
    (h : advanceTurn s w now = .ok s') : allCardIds s' = allCardIds s := by
  unfold advanceTurn at h
  simp only [] at h
  split at h
  case isTrue => simp only [EngRes.ok.injEq] at h; subst h; rfl
  case isFalse =>
    split at h
    case h_1 => simp at h
    case h_2 =>
      rename_i nextPlayerId st1 heq
      have hst1 : st1.players = s.players ∧ st1.carCardsOnBoard = s.carCardsOnBoard ∧
          st1.activeActionCardsOnBoard = s.activeActionCardsOnBoard ∧
          st1.discardPile = s.discardPile ∧ st1.drawPile = s.drawPile := by
        repeat' split at heq
        all_goals first
        | (simp only [EngRes.ok.injEq, Prod.mk.injEq] at heq
           obtain ⟨h1, h2⟩ := heq
           subst h2
           simp)
        | simp at heq
      split at h
      case h_1 => simp at h
      case h_2 =>
        simp only [EngRes.ok.injEq] at h
        subst h
        simp [allCardIds, hst1.1, hst1.2.1, hst1.2.2.1, hst1.2.2.2.1, hst1.2.2.2.2]

theorem endGameByTimeout_cards (s : IGameState) (pid : String) (s' : IGameState)
    (h : endGameByTimeout s pid = .ok s') : allCardIds s' = allCardIds s := by
  unfold endGameByTimeout at h
  repeat' split at h
  all_goals first
  | (simp only [EngRes.ok.injEq] at h; subst h; simp [allCardIds])
  | simp at h

theorem checkGameEndConditions_cards (db : List ICardDefinition) (s s' : IGameState)
    (h : checkGameEndConditions db s = .ok s') : allCardIds s' = allCardIds s := by
  obtain ⟨hpl, hcar, hact, _, hdis, hdraw, _⟩ :=
    checkGameEndConditions_preserves db s s' h
  simp [allCardIds, hpl, hcar, hact, hdis, hdraw]

theorem resolveRound_cards (db : List ICardDefinition) (s s' : IGameState)
    (P1 P2 : IPlayerState) (c1 c2 : ICardInstance) (M1 M2 : CardMetrics) (m : MetricType)
    (hplayers : s.players = [P1, P2]) (hne : P1.id ≠ P2.id)
    (hcarB : s.carCardsOnBoard = [(P1.id, some c1), (P2.id, some c2)])
    (hm : s.selectedMetricForRound = some m)
    (hm1 : c1.currentMetrics = some M1) (hm2 : c2.currentMetrics = some M2)
    (hrun : resolveRound db s = .ok s') :
    allCardIds s' + slotIds s.activeActionCardsOnBoard = allCardIds s := by
  have hc1 : mapGetD s.carCardsOnBoard P1.id = some c1 := by
    rw [hcarB]; simp [mapGetD]
  have hc2 : mapGetD s.carCardsOnBoard P2.id = some c2 := by
    rw [hcarB]; simp [mapGetD, if_neg hne]
  obtain ⟨hrw, hcar', hact', hdis, hdraw, hW1, hW2, hT⟩ :=
    resolveRound_spec db s s' P1 P2 c1 c2 M1 M2 m hplayers hne hc1 hc2 hm hm1 hm2 hrun
  have hcases : s'.roundWinnerId = some P1.id ∨ s'.roundWinnerId = some P2.id ∨
      s'.roundWinnerId = none := by
    rw [hrw]
    split_ifs <;> simp
  rcases hcases with hcase | hcase | hcase
  · have hps := hW1 hcase
    simp [allCardIds, hps, hcar', hact', hdis, hdraw, hcarB, hplayers, handIds, slotIds,
      List.filterMap]
    rw [← Multiset.coe_eq_coe]
    simp only [← Multiset.coe_add, ← Multiset.cons_coe, ← Multiset.singleton_add]
    abel
  · have hps := hW2 hcase
    simp [allCardIds, hps, hcar', hact', hdis, hdraw, hcarB, hplayers, handIds, slotIds,
      List.filterMap]
    rw [← Multiset.coe_eq_coe]
    simp only [← Multiset.coe_add, ← Multiset.cons_coe, ← Multiset.singleton_add]
    abel
  · have hps := hT hcase
    simp [allCardIds, hps, hcar', hact', hdis, hdraw, hcarB, hplayers, handIds, slotIds,
      List.filterMap]
    rw [← Multiset.coe_eq_coe]
    simp only [← Multiset.coe_add, ← Multiset.cons_coe, ← Multiset.singleton_add]
    abel

theorem resolveRound_cards_general (db : List ICardDefinition) (s s' : IGameState)
    (P1 P2 : IPlayerState) (c1 c2 : ICardInstance) (m : MetricType)
    (hplayers : s.players = [P1, P2]) (hne : P1.id ≠ P2.id)
    (hcarB : s.carCardsOnBoard = [(P1.id, some c1), (P2.id, some c2)])
    (hm : s.selectedMetricForRound = some m)
    (hrun : resolveRound db s = .ok s') :
    allCardIds s' + slotIds s.activeActionCardsOnBoard = allCardIds s := by
  have hbne : (P1.id == P2.id) = false := by simpa using hne
  have hbne2 : (P2.id == P1.id) = false := by simpa using (Ne.symm hne)
  have hc1 : mapGetD s.carCardsOnBoard P1.id = some c1 := by
    rw [hcarB]; simp [mapGetD]
  have hc2 : mapGetD s.carCardsOnBoard P2.id = some c2 := by
    rw [hcarB]; simp [mapGetD, if_neg hne]
  unfold resolveRound at hrun
  rw [hplayers] at hrun
  simp only [List.get?, hc1, hc2, hm] at hrun
  split at hrun
  case h_2 => simp at hrun
  case h_3 => simp at hrun
  case h_1 =>
    rename_i v1 v2 hv1 hv2
    by_cases hw : (m = MetricType.weight ∨ m = MetricType.accel)
    · rw [if_pos hw] at hrun
      by_cases hlt : v1 < v2
      · rw [if_pos hlt] at hrun
        simp only [List.find?, beq_self_eq_true, hbne, hbne2, bne, Bool.not_true, Bool.not_false,
          hc1, hc2, hv1, hv2, updateFirst, eq_self_iff_true, if_true] at hrun
        split at hrun
        all_goals (
          rw [checkGameEndConditions_cards db _ s' hrun]
          simp [allCardIds, hcarB, hplayers, handIds, slotIds, List.filterMap]
          rw [← Multiset.coe_eq_coe]
          simp only [← Multiset.coe_add, ← Multiset.cons_coe, ← Multiset.singleton_add]
          abel)
      · rw [if_neg hlt] at hrun
        by_cases hlt2 : v2 < v1
        · rw [if_pos hlt2] at hrun
          simp only [List.find?, beq_self_eq_true, hbne, hbne2, bne, Bool.not_true,
            Bool.not_false, hc1, hc2, hv1, hv2, updateFirst, eq_self_iff_true, if_true,
            if_neg hne] at hrun
          split at hrun
          all_goals (
            rw [checkGameEndConditions_cards db _ s' hrun]
            simp [allCardIds, hcarB, hplayers, handIds, slotIds, List.filterMap]
            rw [← Multiset.coe_eq_coe]
            simp only [← Multiset.coe_add, ← Multiset.cons_coe, ← Multiset.singleton_add]
            abel)
        · rw [if_neg hlt2] at hrun
          simp only [List.set] at hrun
          rw [checkGameEndConditions_cards db _ s' hrun]
          simp [allCardIds, hcarB, hplayers, handIds, slotIds, List.filterMap]
          rw [← Multiset.coe_eq_coe]
          simp only [← Multiset.coe_add, ← Multiset.cons_coe, ← Multiset.singleton_add]
          abel
    · rw [if_neg hw] at hrun
      by_cases hgt : v1 > v2
      · rw [if_pos hgt] at hrun
        simp only [List.find?, beq_self_eq_true, hbne, hbne2, bne, Bool.not_true, Bool.not_false,
          hc1, hc2, hv1, hv2, updateFirst, eq_self_iff_true, if_true] at hrun
        split at hrun
        all_goals (
          rw [checkGameEndConditions_cards db _ s' hrun]
          simp [allCardIds, hcarB, hplayers, handIds, slotIds, List.filterMap]
          rw [← Multiset.coe_eq_coe]
          simp only [← Multiset.coe_add, ← Multiset.cons_coe, ← Multiset.singleton_add]
          abel)
      · rw [if_neg hgt] at hrun
        by_cases hgt2 : v2 > v1
        · rw [if_pos hgt2] at hrun
          simp only [List.find?, beq_self_eq_true, hbne, hbne2, bne, Bool.not_true,
            Bool.not_false, hc1, hc2, hv1, hv2, updateFirst, eq_self_iff_true, if_true,
            if_neg hne] at hrun
          split at hrun
          all_goals (
            rw [checkGameEndConditions_cards db _ s' hrun]
            simp [allCardIds, hcarB, hplayers, handIds, slotIds, List.filterMap]
            rw [← Multiset.coe_eq_coe]
            simp only [← Multiset.coe_add, ← Multiset.cons_coe, ← Multiset.singleton_add]
            abel)
        · rw [if_neg hgt2] at hrun
          simp only [List.set] at hrun
          rw [checkGameEndConditions_cards db _ s' hrun]
          simp [allCardIds, hcarB, hplayers, handIds, slotIds, List.filterMap]
          rw [← Multiset.coe_eq_coe]
          simp only [← Multiset.coe_add, ← Multiset.cons_coe, ← Multiset.singleton_add]
          abel

theorem map_eraseIdx_get {α β : Type} (f : α → β) :
    ∀ (l : List α) (i : ℕ) (c : α), l.get? i = some c →
      (↑(l.map f) : Multiset β) = f c ::ₘ ↑((l.eraseIdx i).map f) := by
  intro l
  induction l with
  | nil => intro i c h; simp at h
  | cons x xs ih =>
    intro i c h
    cases i with
    | zero =>
      simp only [List.get?] at h
      obtain rfl : x = c := by simpa using h
      simp [List.eraseIdx]
    | succ j =>
      simp only [List.get?] at h
      have := ih j c h
      simp only [List.map_cons, List.eraseIdx, ← Multiset.cons_coe, this]
      rw [Multiset.cons_swap]

theorem updateFirst_handIds_sum (pid : String) (f : IPlayerState → IPlayerState) :
    ∀ (ps : List IPlayerState) (p0 : IPlayerState),
      ps.find? (fun p => p.id == pid) = some p0 →
      ((updateFirst ps pid f).map handIds).sum + handIds p0 =
        (ps.map handIds).sum + handIds (f p0) := by
  intro ps
  induction ps with
  | nil => intro p0 h; simp [List.find?] at h
  | cons p ps ih =>
    intro p0 h
    by_cases hp : p.id = pid
    · have hb : (p.id == pid) = true := by simpa using hp
      rw [List.find?] at h
      rw [hb] at h
      obtain rfl : p = p0 := by simpa using h
      unfold updateFirst
      rw [if_pos hp]
      simp only [List.map_cons, List.sum_cons]
      abel
    · have hb : (p.id == pid) = false := by simpa using hp
      rw [List.find?] at h
      rw [hb] at h
      have := ih p0 h
      unfold updateFirst
      rw [if_neg hp]
      simp only [List.map_cons, List.sum_cons]
      calc handIds p + (List.map handIds (updateFirst ps pid f)).sum + handIds p0
          = handIds p + ((List.map handIds (updateFirst ps pid f)).sum + handIds p0) := by abel
        _ = handIds p + ((List.map handIds ps).sum + handIds (f p0)) := by rw [this]
        _ = handIds p + (List.map handIds ps).sum + handIds (f p0) := by abel

theorem slotIds_mapSet_none (v : ICardInstance) (k : String) :
    ∀ (m : List (String × Option ICardInstance)), mapGetD m k = none →
      slotIds (mapSet m k (some v)) = v.instanceId ::ₘ slotIds m := by
  intro m
  induction m with
  | nil => intro h; simp [mapSet, slotIds]
  | cons e rest ih =>
    intro h
    by_cases he : e.1 = k
    · unfold mapGetD at h
      rw [if_pos he] at h
      unfold mapSet
      rw [if_pos he]
      simp [slotIds, List.filterMap, h, ← Multiset.cons_coe]
    · unfold mapGetD at h
      rw [if_neg he] at h
      unfold mapSet
      rw [if_neg he]
      have := ih h
      rcases e with ⟨k', v'⟩
      cases v' with
      | none => simpa [slotIds, List.filterMap] using this
      | some w =>
        simp only [slotIds, List.filterMap] at this ⊢
        simp only [Option.map_some'] at *
        rw [← Multiset.cons_coe, ← Multiset.cons_coe, this]
        rw [Multiset.cons_swap]

theorem performPlayActionBranch_cards (st : IGameState) (pid : String) (opp : IPlayerState)
    (card : ICardInstance) (cardDef : ICardDefinition) (nm : String) (st2 : IGameState)
    (p0 : IPlayerState)
    (hA : mapGetD st.activeActionCardsOnBoard pid = none)
    (hOppFind : st.players.find? (fun p => p.id == opp.id) = some p0)
    (hOppHand : p0.hand = opp.hand)
    (h : performPlayActionBranch st pid opp card cardDef nm = .success st2) :
    allCardIds st2 = card.instanceId ::ₘ allCardIds st := by
  unfold performPlayActionBranch at h
  simp only [] at h
  split at h
  case h_1 => simp at h
  case h_2 =>
    rename_i effect
    repeat' split at h
    all_goals (simp only [PlayOutcome.success.injEq] at h; subst h)
    all_goals first
    | (simp [allCardIds, slotIds_mapSet_none card pid st.activeActionCardsOnBoard hA]
       done)
    | (simp [allCardIds, slotIds_mapSet_none card pid st.activeActionCardsOnBoard hA]
       simp only [← Multiset.singleton_add]
       abel)
    | (rename_i dropped hget
       have e1 := updateFirst_handIds_sum opp.id
         (fun p => { p with hand := p.hand.eraseIdx ((rngNext ⟨st.rngSeed + (opp.hand.length : ℤ)⟩).1 * opp.hand.length / 100000) })
         st.players p0 hOppFind
       have e2 : handIds p0 = dropped.instanceId ::ₘ
           handIds { p0 with hand := p0.hand.eraseIdx ((rngNext ⟨st.rngSeed + (opp.hand.length : ℤ)⟩).1 * opp.hand.length / 100000) } :=
         map_eraseIdx_get (fun c => c.instanceId) p0.hand
           ((rngNext ⟨st.rngSeed + (opp.hand.length : ℤ)⟩).1 * opp.hand.length / 100000) dropped
           (by rw [hOppHand]; exact hget)
       rw [e2] at e1
       rw [← Multiset.singleton_add, ← add_assoc] at e1
       have e3 := add_right_cancel e1
       simp [allCardIds, slotIds_mapSet_none card pid st.activeActionCardsOnBoard hA]
       simp only [← Multiset.coe_add, ← Multiset.cons_coe, ← Multiset.singleton_add,
         Multiset.coe_singleton]
       rw [← e3]
       abel)

theorem performPlayCarBranch_cards (db : List ICardDefinition) (st : IGameState) (pid : String)
    (card : ICardInstance) (cardDef : ICardDefinition) (payload : PlayPayload) (nm : String)
    (st2 : IGameState)
    (hC : mapGetD st.carCardsOnBoard pid = none)
    (h : performPlayCarBranch db st pid card cardDef payload nm = .success st2) :
    allCardIds st2 = card.instanceId ::ₘ allCardIds st := by
  unfold performPlayCarBranch at h
  simp only [] at h
  split at h
  case h_1 => simp at h
  case h_2 =>
    rename_i c1 st1 heq
    have hst1 : c1.instanceId = card.instanceId ∧ st1.players = st.players ∧
        st1.carCardsOnBoard = st.carCardsOnBoard ∧
        st1.activeActionCardsOnBoard = st.activeActionCardsOnBoard ∧
        st1.discardPile = st.discardPile ∧ st1.drawPile = st.drawPile := by
      cases hcm : card.currentMetrics with
      | some m0 =>
        simp only [hcm] at heq
        repeat' split at heq
        all_goals first
        | (simp only [EngRes.ok.injEq, Prod.mk.injEq] at heq
           obtain ⟨h1, h2⟩ := heq
           subst h1
           subst h2
           first
           | (simp; done)
           | (rename_i c9 st9 heq9
              repeat' split at heq9
              all_goals first
              | (simp only [EngRes.ok.injEq, Prod.mk.injEq] at heq9
                 obtain ⟨h3, h4⟩ := heq9
                 subst h3
                 subst h4
                 simp
                 done)
              | simp at heq9))
        | simp at heq
      | none =>
        simp only [hcm] at heq
        cases hdm : getCarCardDefMetrics db card with
        | thrown m =>
          simp only [hdm] at heq
          repeat' split at heq
          all_goals first
          | (simp only [EngRes.ok.injEq, Prod.mk.injEq] at heq
             obtain ⟨h1, h2⟩ := heq
             subst h1
             subst h2
             first
             | (simp; done)
             | (rename_i c9 st9 heq9
                repeat' split at heq9
                all_goals first
                | (simp only [EngRes.ok.injEq, Prod.mk.injEq] at heq9
                   obtain ⟨h3, h4⟩ := heq9
                   subst h3
                   subst h4
                   simp
                   done)
                | simp at heq9))
          | simp at heq
        | ok dm =>
          simp only [hdm] at heq
          repeat' split at heq
          all_goals first
          | (simp only [EngRes.ok.injEq, Prod.mk.injEq] at heq
             obtain ⟨h1, h2⟩ := heq
             subst h1
             subst h2
             first
             | (simp; done)
             | (rename_i c9 st9 heq9
                repeat' split at heq9
                all_goals first
                | (simp only [EngRes.ok.injEq, Prod.mk.injEq] at heq9
                   obtain ⟨h3, h4⟩ := heq9
                   subst h3
                   subst h4
                   simp
                   done)
                | simp at heq9))
          | simp at heq
    split at h
    case h_1 =>
      rename_i st3 heq2
      simp only [PlayOutcome.success.injEq] at h
      subst h
      have hst3 : st3.players = st1.players ∧ st3.carCardsOnBoard = st1.carCardsOnBoard ∧
          st3.activeActionCardsOnBoard = st1.activeActionCardsOnBoard ∧
          st3.discardPile = st1.discardPile ∧ st3.drawPile = st1.drawPile := by
        repeat' split at heq2
        all_goals first
        | (simp only [PlayOutcome.success.injEq] at heq2; subst heq2; simp; done)
        | simp at heq2
      have hC3 : mapGetD st3.carCardsOnBoard pid = none := by
        rw [hst3.2.1, hst1.2.2.1]
        exact hC
      simp [allCardIds, slotIds_mapSet_none c1 pid st3.carCardsOnBoard hC3,
        slotIds_mapSet_none c1 pid st.carCardsOnBoard hC,
        hst3.1, hst3.2.1, hst3.2.2.1, hst3.2.2.2.1, hst3.2.2.2.2,
        hst1.1, hst1.2.1, hst1.2.2.1, hst1.2.2.2.1, hst1.2.2.2.2]
      first
      | done
      | (simp only [← Multiset.singleton_add]; abel)
    case h_2 =>
      rename_i hno heq2
      repeat' split at heq2
      all_goals simp_all

theorem performPlayFinish_cards (db : List ICardDefinition) (st : IGameState)
    (pid oid : String) (now : ℤ) (s2 : IGameState)
    (Q1 Q2 : IPlayerState) (k1 k2 : Option ICardInstance)
    (hplayers : st.players = [Q1, Q2]) (hne : Q1.id ≠ Q2.id)
    (hcarB : st.carCardsOnBoard = [(Q1.id, k1), (Q2.id, k2)])
    (hpo : (pid = Q1.id ∧ oid = Q2.id) ∨ (pid = Q2.id ∧ oid = Q1.id))
    (hm : st.selectedMetricForRound = none → mapGetD st.carCardsOnBoard pid = none)
    (h : performPlayFinish db st pid oid now = .success s2) :
    allCardIds s2 = allCardIds st ∨
    allCardIds s2 + slotIds st.activeActionCardsOnBoard = allCardIds st := by
  unfold performPlayFinish at h
  simp only [] at h
  split at h
  case h_2 =>
    rename_i hno heq
    repeat' split at heq
    all_goals simp_all
  case h_1 =>
    rename_i stR heq
    have key : allCardIds stR = allCardIds st ∨
        allCardIds stR + slotIds st.activeActionCardsOnBoard = allCardIds st := by
      split at heq
      · rename_i hcond
        obtain ⟨hs1, hs2⟩ := hcond
        have hg1 : mapGetD st.carCardsOnBoard Q1.id = k1 := by
          rw [hcarB]; simp [mapGetD]
        have hg2 : mapGetD st.carCardsOnBoard Q2.id = k2 := by
          rw [hcarB]; simp [mapGetD, if_neg hne]
        have hk1 : ∃ cc, k1 = some cc := by
          rcases hpo with ⟨hp, _⟩ | ⟨_, ho⟩
          · rw [hp, hg1] at hs1
            exact Option.isSome_iff_exists.mp hs1
          · rw [ho, hg1] at hs2
            exact Option.isSome_iff_exists.mp hs2
        have hk2 : ∃ cc, k2 = some cc := by
          rcases hpo with ⟨_, ho⟩ | ⟨hp, _⟩
          · rw [ho, hg2] at hs2
            exact Option.isSome_iff_exists.mp hs2
          · rw [hp, hg2] at hs1
            exact Option.isSome_iff_exists.mp hs1
        obtain ⟨c1v, rfl⟩ := hk1
        obtain ⟨c2v, rfl⟩ := hk2
        rcases hsm : st.selectedMetricForRound with _ | m
        · exfalso
          have hnone := hm hsm
          rcases hpo with ⟨hp, _⟩ | ⟨hp, _⟩
          · rw [hp, hg1] at hnone
            simp at hnone
          · rw [hp, hg2] at hnone
            simp at hnone
        · split at heq
          · simp at heq
          · rename_i r heqR
            have rcons := resolveRound_cards_general db st r Q1 Q2 c1v c2v m
              hplayers hne hcarB hsm heqR
            split at heq
            all_goals (simp only [PlayOutcome.success.injEq] at heq; subst heq)
            all_goals (right; rw [← rcons]; first | done | simp [allCardIds])
      · simp only [PlayOutcome.success.injEq] at heq
        subst heq
        exact Or.inl rfl
    split at h
    case h_1 => simp at h
    case h_2 =>
      rename_i st3 heq3
      have h4 := checkGameEndConditions_cards db stR st3 heq3
      repeat' split at h
      all_goals first
      | ((try simp only [PlayOutcome.success.injEq] at h)
         subst h
         rcases key with k | k
         · left
           rw [← k, ← h4]
           first | done | simp [allCardIds]
         · right
           rw [← k, ← h4]
           first | done | simp [allCardIds])
      | simp at h

theorem updateFirst_two (A1 A2 : IPlayerState) (q : String) (f : IPlayerState → IPlayerState) :
    updateFirst [A1, A2] q f =
      if A1.id = q then [f A1, A2] else if A2.id = q then [A1, f A2] else [A1, A2] := by
  unfold updateFirst
  unfold updateFirst
  split_ifs <;> simp [updateFirst]

theorem performPlayActionBranch_struct (st : IGameState) (pid : String) (opp : IPlayerState)
    (card : ICardInstance) (cardDef : ICardDefinition) (nm : String) (st2 : IGameState)
    (h : performPlayActionBranch st pid opp card cardDef nm = .success st2) :
    st2.carCardsOnBoard = st.carCardsOnBoard ∧
    st2.selectedMetricForRound = st.selectedMetricForRound ∧
    (st2.players = st.players ∨
      ∃ i, st2.players = updateFirst st.players opp.id
        (fun p => { p with hand := p.hand.eraseIdx i })) := by
  unfold performPlayActionBranch at h
  simp only [] at h
  repeat' split at h
  all_goals first
  | (simp only [PlayOutcome.success.injEq] at h
     subst h
     refine ⟨by simp, by simp, ?_⟩
     first
     | (left; simp; done)
     | (right
        exact ⟨(rngNext ⟨st.rngSeed + (opp.hand.length : ℤ)⟩).1 * opp.hand.length / 100000,
          by simp⟩))
  | simp at h

theorem performPlayCarBranch_struct (db : List ICardDefinition) (st : IGameState) (pid : String)
    (card : ICardInstance) (cardDef : ICardDefinition) (payload : PlayPayload) (nm : String)
    (st2 : IGameState)
    (h : performPlayCarBranch db st pid card cardDef payload nm = .success st2) :
    (∃ c, st2.carCardsOnBoard = mapSet st.carCardsOnBoard pid (some c)) ∧
    st2.players = st.players ∧
    st2.activeActionCardsOnBoard = st.activeActionCardsOnBoard ∧
    (∃ m, st2.selectedMetricForRound = some m) := by
  unfold performPlayCarBranch at h
  simp only [] at h
  split at h
  case h_1 => simp at h
  case h_2 =>
    rename_i c1 st1 heq
    have hst1 : st1.players = st.players ∧ st1.carCardsOnBoard = st.carCardsOnBoard ∧
        st1.activeActionCardsOnBoard = st.activeActionCardsOnBoard := by
      repeat' split at heq
      all_goals first
      | (simp only [EngRes.ok.injEq, Prod.mk.injEq] at heq
         obtain ⟨h1, h2⟩ := heq
         subst h2
         first
         | (simp; done)
         | (rename_i c9 st9 heq9
            repeat' split at heq9
            all_goals first
            | (simp only [EngRes.ok.injEq, Prod.mk.injEq] at heq9
               obtain ⟨h3, h4⟩ := heq9
               subst h4
               simp
               done)
            | simp at heq9))
      | simp at heq
    rcases hsel : st1.selectedMetricForRound with _ | mSel
    · rw [if_pos hsel] at h
      rcases hpm : payload.selectedMetric with _ | mP
      · simp only [hpm] at h
        simp at h
      · simp only [hpm] at h
        simp only [PlayOutcome.success.injEq] at h
        subst h
        exact ⟨⟨c1, by simp [hst1.2.1]⟩, by simp [hst1.1], by simp [hst1.2.2],
          ⟨mP, by simp⟩⟩
    · rw [if_neg (by simp [hsel])] at h
      simp only [PlayOutcome.success.injEq] at h
      subst h
      exact ⟨⟨c1, by simp [hst1.2.1]⟩, by simp [hst1.1], by simp [hst1.2.2],
        ⟨mSel, by simp [hsel]⟩⟩

theorem performPlayCarBranch_metricMod_general (db : List ICardDefinition) (st : IGameState)
    (pid : String) (card : ICardInstance) (cardDef : ICardDefinition) (payload : PlayPayload)
    (nm : String) (pm : PendingModifier) (ac : ICardInstance) (acDef : ICardDefinition)
    (CM OM : CardMetrics) (tm : MetricType) (st2 : IGameState)
    (hpm : mapGetD st.pendingMetricModifiers pid = some pm)
    (hac : mapGetD st.activeActionCardsOnBoard pm.sourcePlayerId = some ac)
    (hacDef : getCardDefinition db ac.cardId = some acDef)
    (hcm : card.currentMetrics = some CM)
    (hom : card.originalMetrics = some OM)
    (htype : pm.effect.type = .metric_mod_temp ∨ pm.effect.type = .metric_mod_perm)
    (htm : pm.effect.targetMetric = some tm)
    (hrun : performPlayCarBranch db st pid card cardDef payload nm = .success st2) :
    st2.players = st.players ∧
    st2.carCardsOnBoard = mapSet st.carCardsOnBoard pid (some
      { card with
        currentMetrics := some (CM.set tm (jsRound
          (if pm.effect.modifierType = some ModifierType.percentage then
            OM.get tm * (1 + pm.effect.value.getD 0 / 100)
          else OM.get tm + pm.effect.value.getD 0))),
        isModifiedPermanently :=
          if pm.effect.type = .metric_mod_perm then some true
          else card.isModifiedPermanently }) ∧
    (∃ m, st2.selectedMetricForRound = some m) := by
  unfold performPlayCarBranch at hrun
  simp only [hpm, hac, hacDef, hcm, hom, htm, if_pos htype, Option.getD_some] at hrun
  rcases hselS : st.selectedMetricForRound with _ | mSel
  · rw [if_pos (by simp [hselS])] at hrun
    rcases hpmS : payload.selectedMetric with _ | mP
    · simp only [hpmS] at hrun
      simp at hrun
    · simp only [hpmS] at hrun
      simp only [PlayOutcome.success.injEq] at hrun
      subst hrun
      refine ⟨by simp, by simp [hom], ⟨mP, by simp⟩⟩
  · rw [if_neg (by simp [hselS])] at hrun
    simp only [PlayOutcome.success.injEq] at hrun
    subst hrun
    refine ⟨by simp, by simp [hom], ⟨mSel, by simp [hselS]⟩⟩

theorem performPlayFinish_resolve_hand (db : List ICardDefinition) (st : IGameState)
    (pid oid : String) (now : ℤ) (s2 : IGameState)
    (Q1 Q2 : IPlayerState) (cO c2 : ICardInstance) (KO K2 : CardMetrics) (m : MetricType)
    (hplayers : st.players = [Q1, Q2]) (hne : Q1.id ≠ Q2.id)
    (hpo : (pid = Q1.id ∧ oid = Q2.id) ∨ (pid = Q2.id ∧ oid = Q1.id))
    (hcp : mapGetD st.carCardsOnBoard pid = some cO)
    (hco : mapGetD st.carCardsOnBoard oid = some c2)
    (hm : st.selectedMetricForRound = some m)
    (hmO : cO.currentMetrics = some KO) (hm2 : c2.currentMetrics = some K2)
    (h : performPlayFinish db st pid oid now = .success s2) :
    ∃ p, p ∈ s2.players ∧ cO ∈ p.hand := by
  unfold performPlayFinish at h
  simp only [] at h
  split at h
  case h_2 =>
    rename_i hno heq
    repeat' split at heq
    all_goals simp_all
  case h_1 =>
    rename_i stR heq
    rw [if_pos (by rw [hcp, hco]; exact ⟨rfl, rfl⟩)] at heq
    split at heq
    · simp at heq
    · rename_i r heqR
      have hhand : ∃ p, p ∈ r.players ∧ cO ∈ p.hand := by
        rcases hpo with ⟨hp, ho⟩ | ⟨hp, ho⟩
        · obtain ⟨hrw, _, _, _, _, hW1, hW2, hT⟩ :=
            resolveRound_spec db st r Q1 Q2 cO c2 KO K2 m hplayers hne
              (by rw [← hp]; exact hcp) (by rw [← ho]; exact hco) hm hmO hm2 heqR
          have hcases : r.roundWinnerId = some Q1.id ∨ r.roundWinnerId = some Q2.id ∨
              r.roundWinnerId = none := by
            rw [hrw]; split_ifs <;> simp
          rcases hcases with hc | hc | hc
          · exact ⟨_, by rw [hW1 hc]; exact List.mem_cons_self _ _, by simp⟩
          · exact ⟨_, by rw [hW2 hc]; exact List.mem_cons_of_mem _ (List.mem_cons_self _ _),
              by simp⟩
          · exact ⟨_, by rw [hT hc]; exact List.mem_cons_self _ _, by simp⟩
        · obtain ⟨hrw, _, _, _, _, hW1, hW2, hT⟩ :=
            resolveRound_spec db st r Q1 Q2 c2 cO K2 KO m hplayers hne
              (by rw [← ho]; exact hco) (by rw [← hp]; exact hcp) hm hm2 hmO heqR
          have hcases : r.roundWinnerId = some Q1.id ∨ r.roundWinnerId = some Q2.id ∨
              r.roundWinnerId = none := by
            rw [hrw]; split_ifs <;> simp
          rcases hcases with hc | hc | hc
          · exact ⟨_, by rw [hW1 hc]; exact List.mem_cons_self _ _, by simp⟩
          · exact ⟨_, by rw [hW2 hc]; exact List.mem_cons_of_mem _ (List.mem_cons_self _ _),
              by simp⟩
          · exact ⟨_, by rw [hT hc]; exact List.mem_cons_of_mem _ (List.mem_cons_self _ _),
              by simp⟩
      have hRp : stR.players = r.players := by
        split at heq
        all_goals (simp only [PlayOutcome.success.injEq] at heq; subst heq; simp)
      split at h
      case h_1 => simp at h
      case h_2 =>
        rename_i st3 heq3
        have hpl3 : st3.players = stR.players :=
          (checkGameEndConditions_preserves db stR st3 heq3).1
        repeat' split at h
        all_goals first
        | ((try simp only [PlayOutcome.success.injEq] at h)
           subst h
           obtain ⟨p, hp1, hp2⟩ := hhand
           exact ⟨p, by simp [hpl3, hRp, hp1], hp2⟩)
        | simp at h

/-- C5 (amended): for every car card played by a player holding a pending
`metric_mod_temp` or `metric_mod_perm` modifier — whether the round metric
was already selected or the play itself supplies it via the payload — the
modifier's target metric is recomputed from `originalMetrics` as
`orig * (1 + value/100)` for percentage modifiers and `orig + value` for
absolute ones, **then rounded to the nearest integer by `Math.round`**,
and the rounded value is written into the instance's `currentMetrics`
(permanent modifiers also set `isModifiedPermanently`).  If the opponent's
car slot is still empty the modified instance sits on the board; if the
play completes the round, the round resolves inline and the modified
instance — rounded value and permanence flag intact — moves into a
player's hand. -/
theorem C5_metric_modification_amended (db : List ICardDefinition) (s : IGameState)
    (pid cid : String) (payload : PlayPayload) (now : ℤ) (s' : IGameState)
    (player opp P1 P2 : IPlayerState) (idx : ℕ) (card : ICardInstance)
    (cardDef : ICardDefinition) (pm : PendingModifier) (ac : ICardInstance)
    (acDef : ICardDefinition) (CM OM : CardMetrics) (tm : MetricType)
    (hplayers : s.players = [P1, P2]) (hne : P1.id ≠ P2.id)
    (hval : isValidPlay db s pid cid payload = .ok { isValid := true, message := none })
    (hfind : s.players.find? (fun p => p.id == pid) = some player)
    (hfopp : s.players.find? (fun p => p.id != pid) = some opp)
    (hidx : player.hand.findIdx? (fun c => c.instanceId == cid) = some idx)
    (hget : player.hand.get? idx = some card)
    (hdef : getCardDefinition db card.cardId = some cardDef)
    (hcar : cardDef.type = .car)
    (hpm : mapGetD s.pendingMetricModifiers pid = some pm)
    (hac : mapGetD s.activeActionCardsOnBoard pm.sourcePlayerId = some ac)
    (hacDef : getCardDefinition db ac.cardId = some acDef)
    (hcm : card.currentMetrics = some CM)
    (hom : card.originalMetrics = some OM)
    (htype : pm.effect.type = .metric_mod_temp ∨ pm.effect.type = .metric_mod_perm)
    (htm : pm.effect.targetMetric = some tm)
    (hoppmet : ∀ c2, mapGetD s.carCardsOnBoard opp.id = some c2 →
      ∃ K2, c2.currentMetrics = some K2)
    (hrun : performPlay db s pid cid payload now = .success s') :
    (mapGetD s.carCardsOnBoard opp.id = none →
      mapGetD s'.carCardsOnBoard pid = some
        { card with
          currentMetrics := some (CM.set tm (jsRound
            (if pm.effect.modifierType = some ModifierType.percentage then
              OM.get tm * (1 + pm.effect.value.getD 0 / 100)
            else OM.get tm + pm.effect.value.getD 0))),
          isModifiedPermanently :=
            if pm.effect.type = .metric_mod_perm then some true
            else card.isModifiedPermanently }) ∧
    (∀ c2, mapGetD s.carCardsOnBoard opp.id = some c2 →
      ∃ p, p ∈ s'.players ∧
        ({ card with
          currentMetrics := some (CM.set tm (jsRound
            (if pm.effect.modifierType = some ModifierType.percentage then
              OM.get tm * (1 + pm.effect.value.getD 0 / 100)
            else OM.get tm + pm.effect.value.getD 0))),
          isModifiedPermanently :=
            if pm.effect.type = .metric_mod_perm then some true
            else card.isModifiedPermanently } : ICardInstance) ∈ p.hand) := by
  have hoppne : opp.id ≠ pid := by
    have := List.find?_some hfopp
    simpa using this
  unfold performPlay at hrun
  simp only [hval, hfind, hfopp, hidx, hget, hdef] at hrun
  rw [if_neg (by simp)] at hrun
  rw [if_neg (by simp [hcar])] at hrun
  split at hrun
  case h_2 =>
    rename_i hno heqb
    exact absurd hrun (heqb s')
  case h_1 =>
    rename_i st2 heqb
    obtain ⟨hP, hB, m2, hM⟩ := performPlayCarBranch_metricMod_general db
      { s with players := updateFirst s.players pid fun p => { p with hand := p.hand.eraseIdx idx } }
      pid card cardDef payload player.name pm ac acDef CM OM tm st2
      hpm hac hacDef hcm hom htype htm heqb
    simp only [] at hP hB
    constructor
    · intro hoppnone
      have hslot : mapGetD st2.carCardsOnBoard opp.id = none := by
        rw [hB, mapGetD_mapSet_ne _ _ _ _ hoppne]
        exact hoppnone
      have hb2 := performPlayFinish_noResolve_carBoard db st2 pid opp.id now s' hslot hrun
      rw [hb2, hB, mapGetD_mapSet_self]
    · intro c2 hopp2
      obtain ⟨K2, hK2⟩ := hoppmet c2 hopp2
      have hcp : mapGetD st2.carCardsOnBoard pid = some
          { card with
            currentMetrics := some (CM.set tm (jsRound
              (if pm.effect.modifierType = some ModifierType.percentage then
                OM.get tm * (1 + pm.effect.value.getD 0 / 100)
              else OM.get tm + pm.effect.value.getD 0))),
            isModifiedPermanently :=
              if pm.effect.type = .metric_mod_perm then some true
              else card.isModifiedPermanently } := by
        rw [hB, mapGetD_mapSet_self]
      have hco : mapGetD st2.carCardsOnBoard opp.id = some c2 := by
        rw [hB, mapGetD_mapSet_ne _ _ _ _ hoppne]
        exact hopp2
      by_cases hp1 : P1.id = pid
      · have hne2 : P2.id ≠ pid := by
          rw [← hp1]
          exact Ne.symm hne
        have hopp' : opp = P2 := by
          rw [hplayers] at hfopp
          simp only [List.find?, show (P1.id != pid) = false by simp [hp1],
            show (P2.id != pid) = true by simp [hne2]] at hfopp
          simp only [Option.some.injEq] at hfopp
          exact hfopp.symm
        have hpl2 : st2.players = [{ P1 with hand := P1.hand.eraseIdx idx }, P2] := by
          rw [hP, hplayers, updateFirst_two, if_pos hp1]
        exact performPlayFinish_resolve_hand db st2 pid opp.id now s'
          { P1 with hand := P1.hand.eraseIdx idx } P2 _ c2 _ K2 m2
          hpl2 (by simpa using hne)
          (Or.inl ⟨by simpa using hp1.symm, by rw [hopp']⟩)
          hcp hco hM rfl hK2 hrun
      · have hp2 : P2.id = pid := by
          rw [hplayers] at hfind
          simp only [List.find?, show (P1.id == pid) = false by simp [hp1]] at hfind
          by_cases hq : P2.id = pid
          · exact hq
          · rw [show (P2.id == pid) = false by simp [hq]] at hfind
            simp at hfind
        have hopp' : opp = P1 := by
          rw [hplayers] at hfopp
          simp only [List.find?,
            show (P1.id != pid) = true by simp [fun h => hp1 h],
            show (P2.id != pid) = false by simp [hp2]] at hfopp
          simp only [Option.some.injEq] at hfopp
          exact hfopp.symm
        have hpl2 : st2.players = [P1, { P2 with hand := P2.hand.eraseIdx idx }] := by
          rw [hP, hplayers, updateFirst_two, if_neg hp1, if_pos hp2]
        exact performPlayFinish_resolve_hand db st2 pid opp.id now s'
          P1 { P2 with hand := P2.hand.eraseIdx idx } _ c2 _ K2 m2
          hpl2 (by simpa using hne)
          (Or.inr ⟨by simpa using hp2.symm, by rw [hopp']⟩)
          hcp hco hM rfl hK2 hrun

/-- C5 witness (spec scenario S2, resolved inline): p1 plays CAR_A
(hp 300) into a pending absolute +50 permanent HP modifier while CAR_C
already occupies the opponent's slot; the round resolves, the board
empties, and the instance in a hand carries `hp = 350` and
`isModifiedPermanently = some true`. -/
theorem C5_metric_modification_amended_witness :
    performPlay dbPermOnly sPermRes "p1" "i-a" { selectedMetric := some .speed } 1005 =
      .success sPermResOut ∧
    mapGetD sPermResOut.carCardsOnBoard "p1" = none ∧
    (∃ p, p ∈ sPermResOut.players ∧
      ({ instanceId := "i-a", cardId := "CAR_A",
         currentMetrics := some { speed := 200, hp := 350, accel := 5, weight := 1500,
                                  year := 2001 },
         isModifiedPermanently := some true,
         originalMetrics := (mkTestCar "CAR_A" "Car A" 200 300 5 1500 2001).metrics } :
        ICardInstance) ∈ p.hand) := by
  refine ⟨rfl, rfl, ?_⟩
  have h := (C5_metric_modification_amended dbPermOnly sPermRes "p1" "i-a" { selectedMetric := some .speed } 1005
    sPermResOut
    { id := "p1", name := "P1", hand := [carInstA], score := 0 }
    { id := "p2", name := "P2", hand := [], score := 0 }
    { id := "p1", name := "P1", hand := [carInstA], score := 0 }
    { id := "p2", name := "P2", hand := [], score := 0 }
    0 carInstA carA
    { sourcePlayerId := "p1", actionCardInstanceId := "i-act", effect := permHpEffect }
    actionInstPerm
    { id := "ACTION_HP_BOOST_PERM", name := "Örök Tuning", type := .action,
      description := "+50 HP (permanens)", actionEffect := some permHpEffect }
    { speed := 200, hp := 300, accel := 5, weight := 1500, year := 2001 }
    { speed := 200, hp := 300, accel := 5, weight := 1500, year := 2001 }
    MetricType.hp
    rfl (by decide) rfl rfl rfl rfl rfl rfl rfl rfl rfl rfl rfl rfl (Or.inr rfl) rfl
    (fun c2 hc2 => by
      rw [show mapGetD sPermRes.carCardsOnBoard "p2" = some carInstC from rfl] at hc2
      simp only [Option.some.injEq] at hc2
      rw [← hc2]
      exact ⟨_, rfl⟩)
    rfl).2 carInstC rfl
  simpa [show jsRound (300 + 50 : ℚ) = 350 from
      jsRound_eval _ 350 (by norm_num) (by norm_num),
    CardMetrics.set, CardMetrics.get, permHpEffect, carInstA, mkTestCar] using h

theorem performPlayFinish_noResolve_cards (db : List ICardDefinition) (st : IGameState)
    (pid oid : String) (now : ℤ) (s2 : IGameState)
    (hnores : mapGetD st.carCardsOnBoard pid = none ∨ mapGetD st.carCardsOnBoard oid = none)
    (h : performPlayFinish db st pid oid now = .success s2) :
    allCardIds s2 = allCardIds st := by
  unfold performPlayFinish at h
  rw [if_neg (by rcases hnores with hn | hn <;> simp [hn])] at h
  simp only [] at h
  split at h
  case h_1 => simp at h
  case h_2 =>
    rename_i st3 heq3
    have h4 := checkGameEndConditions_cards db st st3 heq3
    repeat' split at h
    all_goals first
    | ((try simp only [PlayOutcome.success.injEq] at h)
       subst h
       rw [← h4]
       first | done | simp [allCardIds])
    | simp at h

theorem st1_allCardIds (s : IGameState) (pid : String) (player : IPlayerState) (idx : ℕ)
    (card : ICardInstance)
    (hfind : s.players.find? (fun p => p.id == pid) = some player)
    (hget : player.hand.get? idx = some card) :
    card.instanceId ::ₘ allCardIds { s with players := updateFirst s.players pid (fun p => { p with hand := p.hand.eraseIdx idx }) } = allCardIds s := by
  have e1 := updateFirst_handIds_sum pid (fun p => { p with hand := p.hand.eraseIdx idx })
    s.players player hfind
  have e2 : handIds player = card.instanceId ::ₘ
      handIds { player with hand := player.hand.eraseIdx idx } := by
    unfold handIds
    exact map_eraseIdx_get (fun c => c.instanceId) player.hand idx card hget
  rw [e2] at e1
  rw [← Multiset.singleton_add, ← add_assoc] at e1
  have e3 := add_right_cancel e1
  simp only [allCardIds]
  rw [← e3]
  simp only [← Multiset.singleton_add]
  abel

theorem performPlay_cards (db : List ICardDefinition) (s : IGameState)
    (pid cid : String) (payload : PlayPayload) (now : ℤ) (s' : IGameState)
    (P1 P2 : IPlayerState) (k1 k2 : Option ICardInstance)
    (player opp : IPlayerState) (idx : ℕ) (card : ICardInstance) (cardDef : ICardDefinition)
    (hplayers : s.players = [P1, P2]) (hne : P1.id ≠ P2.id)
    (hcarB : s.carCardsOnBoard = [(P1.id, k1), (P2.id, k2)])
    (hval : isValidPlay db s pid cid payload = .ok { isValid := true, message := none })
    (hfind : s.players.find? (fun p => p.id == pid) = some player)
    (hfopp : s.players.find? (fun p => p.id != pid) = some opp)
    (hidx : player.hand.findIdx? (fun c => c.instanceId == cid) = some idx)
    (hget : player.hand.get? idx = some card)
    (hdef : getCardDefinition db card.cardId = some cardDef)
    (hC : mapGetD s.carCardsOnBoard pid = none)
    (hA : cardDef.type = .action → mapGetD s.activeActionCardsOnBoard pid = none)
    (hrun : performPlay db s pid cid payload now = .success s') :
    allCardIds s' = allCardIds s ∨
    allCardIds s' + slotIds s.activeActionCardsOnBoard = allCardIds s := by
  have hoppne : opp.id ≠ pid := by
    have := List.find?_some hfopp
    simpa using this
  have hs1 := st1_allCardIds s pid player idx card hfind hget
  unfold performPlay at hrun
  simp only [hval, hfind, hfopp, hidx, hget, hdef] at hrun
  rw [if_neg (by simp)] at hrun
  split at hrun
  case h_2 =>
    rename_i hno heqb
    exact absurd hrun (heqb s')
  case h_1 =>
    rename_i st2 heqb
    set st1 : IGameState := { s with players := updateFirst s.players pid (fun p => { p with hand := p.hand.eraseIdx idx }) } with hst1def
    have hst1c : mapGetD st1.carCardsOnBoard pid = none := hC
    have hst1a : cardDef.type = .action → mapGetD st1.activeActionCardsOnBoard pid = none := hA
    by_cases hcd : cardDef.type = .action
    · rw [if_pos hcd] at heqb
      have hstruct := performPlayActionBranch_struct st1 pid opp card cardDef
        player.name st2 heqb
      have hnores : mapGetD st2.carCardsOnBoard pid = none := by
        rw [hstruct.1]
        exact hst1c
      have hfin := performPlayFinish_noResolve_cards db st2 pid opp.id now s'
        (Or.inl hnores) hrun
      by_cases hp1 : P1.id = pid
      · have hne2 : P2.id ≠ pid := by
          rw [← hp1]
          exact Ne.symm hne
        have hopp' : opp = P2 := by
          rw [hplayers] at hfopp
          simp only [List.find?, show (P1.id != pid) = false by simp [hp1],
            show (P2.id != pid) = true by simp [hne2]] at hfopp
          simp only [Option.some.injEq] at hfopp
          exact hfopp.symm
        have hOppFind : st1.players.find? (fun p => p.id == opp.id) = some P2 := by
          rw [hst1def]
          show (updateFirst s.players pid _).find? _ = some P2
          rw [hplayers, updateFirst_two, if_pos hp1, hopp']
          simp [List.find?, show (P1.id == P2.id) = false from by simp [hne]]
        have hbranch := performPlayActionBranch_cards st1 pid opp card cardDef player.name
          st2 P2 (hst1a hcd) hOppFind (by rw [hopp']) heqb
        left
        rw [hfin, hbranch]
        exact hs1
      · have hp2 : P2.id = pid := by
          rw [hplayers] at hfind
          simp only [List.find?, show (P1.id == pid) = false by simp [hp1]] at hfind
          by_cases hq : P2.id = pid
          · exact hq
          · rw [show (P2.id == pid) = false by simp [hq]] at hfind
            simp at hfind
        have hopp' : opp = P1 := by
          rw [hplayers] at hfopp
          simp only [List.find?,
            show (P1.id != pid) = true by simp [fun h => hp1 h],
            show (P2.id != pid) = false by simp [hp2]] at hfopp
          simp only [Option.some.injEq] at hfopp
          exact hfopp.symm
        have hOppFind : st1.players.find? (fun p => p.id == opp.id) = some P1 := by
          rw [hst1def]
          show (updateFirst s.players pid _).find? _ = some P1
          rw [hplayers, updateFirst_two, if_neg hp1, if_pos hp2, hopp']
          simp [List.find?]
        have hbranch := performPlayActionBranch_cards st1 pid opp card cardDef player.name
          st2 P1 (hst1a hcd) hOppFind (by rw [hopp']) heqb
        left
        rw [hfin, hbranch]
        exact hs1
    · rw [if_neg hcd] at heqb
      have hbranch := performPlayCarBranch_cards db st1 pid card cardDef payload player.name
        st2 hst1c heqb
      obtain ⟨⟨cP, hcB2⟩, hP2, hA2, m2, hM2⟩ :=
        performPlayCarBranch_struct db st1 pid card cardDef payload player.name st2 heqb
      have hcB2s : st2.carCardsOnBoard = mapSet s.carCardsOnBoard pid (some cP) := hcB2
      have hA2s : st2.activeActionCardsOnBoard = s.activeActionCardsOnBoard := hA2
      have hP2s : st2.players = updateFirst s.players pid (fun p => { p with hand := p.hand.eraseIdx idx }) := hP2
      rcases hko : mapGetD s.carCardsOnBoard opp.id with _ | c2
      · have hnores : mapGetD st2.carCardsOnBoard opp.id = none := by
          rw [hcB2s, mapGetD_mapSet_ne _ _ _ _ hoppne]
          exact hko
        have hfin := performPlayFinish_noResolve_cards db st2 pid opp.id now s'
          (Or.inr hnores) hrun
        left
        rw [hfin, hbranch]
        exact hs1
      · have hmnone : ¬ st2.selectedMetricForRound = none := by
          intro hnone
          rw [hM2] at hnone
          exact Option.noConfusion hnone
        by_cases hp1 : P1.id = pid
        · have hne2 : P2.id ≠ pid := by
            rw [← hp1]
            exact Ne.symm hne
          have hopp' : opp = P2 := by
            rw [hplayers] at hfopp
            simp only [List.find?, show (P1.id != pid) = false by simp [hp1],
              show (P2.id != pid) = true by simp [hne2]] at hfopp
            simp only [Option.some.injEq] at hfopp
            exact hfopp.symm
          have hpl2 : st2.players = [{ P1 with hand := P1.hand.eraseIdx idx }, P2] := by
            rw [hP2s, hplayers, updateFirst_two, if_pos hp1]
          have hcarB2 : st2.carCardsOnBoard =
              [(({ P1 with hand := P1.hand.eraseIdx idx } : IPlayerState).id, some cP),
               (P2.id, k2)] := by
            rw [hcB2s, hcarB]
            unfold mapSet
            rw [if_pos hp1]
            simp [hp1]
          have hfin := performPlayFinish_cards db st2 pid opp.id now s'
            { P1 with hand := P1.hand.eraseIdx idx } P2 (some cP) k2
            hpl2 (by simpa using hne) hcarB2
            (Or.inl ⟨by simpa using hp1.symm, by rw [hopp']⟩)
            (fun hnone => absurd hnone hmnone)
            hrun
          rcases hfin with hf | hf
          · left
            rw [hf, hbranch]
            exact hs1
          · right
            rw [hA2s, hbranch] at hf
            rw [← hs1]
            exact hf
        · have hp2 : P2.id = pid := by
            rw [hplayers] at hfind
            simp only [List.find?, show (P1.id == pid) = false by simp [hp1]] at hfind
            by_cases hq : P2.id = pid
            · exact hq
            · rw [show (P2.id == pid) = false by simp [hq]] at hfind
              simp at hfind
          have hopp' : opp = P1 := by
            rw [hplayers] at hfopp
            simp only [List.find?,
              show (P1.id != pid) = true by simp [fun h => hp1 h],
              show (P2.id != pid) = false by simp [hp2]] at hfopp
            simp only [Option.some.injEq] at hfopp
            exact hfopp.symm
          have hpl2 : st2.players = [P1, { P2 with hand := P2.hand.eraseIdx idx }] := by
            rw [hP2s, hplayers, updateFirst_two, if_neg hp1, if_pos hp2]
          have hcarB2 : st2.carCardsOnBoard =
              [(P1.id, k1),
               (({ P2 with hand := P2.hand.eraseIdx idx } : IPlayerState).id, some cP)] := by
            rw [hcB2s, hcarB]
            unfold mapSet
            rw [if_neg hp1]
            unfold mapSet
            rw [if_pos hp2]
            simp [hp2]
          have hfin := performPlayFinish_cards db st2 pid opp.id now s'
            P1 { P2 with hand := P2.hand.eraseIdx idx } k1 (some cP)
            hpl2 (by simpa using hne) hcarB2
            (Or.inr ⟨by simpa using hp2.symm, by rw [hopp']⟩)
            (fun hnone => absurd hnone hmnone)
            hrun
          rcases hfin with hf | hf
          · left
            rw [hf, hbranch]
            exact hs1
          · right
            rw [hA2s, hbranch] at hf
            rw [← hs1]
            exact hf

/-- C1 (amended): every engine operation either preserves the multiset of
card instance identifiers exactly, or — when a round is resolved — loses
exactly the identifiers sitting in the action-board slots (those cards are
destroyed, not discarded); in particular no operation ever creates or
duplicates an instance identifier. -/
theorem C1_card_conservation_amended :
    (∀ (s : IGameState) (w : Option String) (now : ℤ) (s' : IGameState),
      advanceTurn s w now = .ok s' → allCardIds s' = allCardIds s) ∧
    (∀ (s : IGameState) (pid : String) (s' : IGameState),
      endGameByTimeout s pid = .ok s' → allCardIds s' = allCardIds s) ∧
    (∀ (db : List ICardDefinition) (s s' : IGameState),
      checkGameEndConditions db s = .ok s' → allCardIds s' = allCardIds s) ∧
    (∀ (db : List ICardDefinition) (s s' : IGameState) (P1 P2 : IPlayerState)
      (c1 c2 : ICardInstance) (m : MetricType),
      s.players = [P1, P2] → P1.id ≠ P2.id →
      s.carCardsOnBoard = [(P1.id, some c1), (P2.id, some c2)] →
      s.selectedMetricForRound = some m →
      resolveRound db s = .ok s' →
      allCardIds s' + slotIds s.activeActionCardsOnBoard = allCardIds s) ∧
    (∀ (db : List ICardDefinition) (s : IGameState) (pid cid : String)
      (payload : PlayPayload) (now : ℤ) (s' : IGameState) (P1 P2 : IPlayerState)
      (k1 k2 : Option ICardInstance) (player opp : IPlayerState) (idx : ℕ)
      (card : ICardInstance) (cardDef : ICardDefinition),
      s.players = [P1, P2] → P1.id ≠ P2.id →
      s.carCardsOnBoard = [(P1.id, k1), (P2.id, k2)] →
      isValidPlay db s pid cid payload = .ok { isValid := true, message := none } →
      s.players.find? (fun p => p.id == pid) = some player →
      s.players.find? (fun p => p.id != pid) = some opp →
      player.hand.findIdx? (fun c => c.instanceId == cid) = some idx →
      player.hand.get? idx = some card →
      getCardDefinition db card.cardId = some cardDef →
      mapGetD s.carCardsOnBoard pid = none →
      (cardDef.type = .action → mapGetD s.activeActionCardsOnBoard pid = none) →
      performPlay db s pid cid payload now = .success s' →
      (allCardIds s' = allCardIds s ∨
        allCardIds s' + slotIds s.activeActionCardsOnBoard = allCardIds s) ∧
      ((allCardIds s).Nodup → (allCardIds s').Nodup)) := by
  refine ⟨advanceTurn_cards, endGameByTimeout_cards, checkGameEndConditions_cards,
    resolveRound_cards_general, ?_⟩
  intro db s pid cid payload now s' P1 P2 k1 k2 player opp idx card cardDef
    hplayers hne hcarB hval hfind hfopp hidx hget hdef hC hA hrun
  have hmain := performPlay_cards db s pid cid payload now s' P1 P2 k1 k2 player opp idx
    card cardDef hplayers hne hcarB hval hfind hfopp hidx hget hdef hC hA hrun
  refine ⟨hmain, ?_⟩
  intro hnod
  rcases hmain with hEq | hLoss
  · rwa [hEq]
  · exact Multiset.nodup_of_le
      (Multiset.le_iff_exists_add.mpr ⟨slotIds s.activeActionCardsOnBoard, hLoss.symm⟩) hnod

/-- C1 witness: concrete runs of all five operations — turn advance,
timeout end, end-condition check, a full round resolution, and a car play
that applies a pending modifier and resolves the round — each conserving
the instance-id multiset exactly or up to the destroyed action slot. -/
theorem C1_card_conservation_amended_witness :
    (advanceTurn s0cars none 2000 = .ok sAdv ∧ allCardIds sAdv = allCardIds s0cars) ∧
    (endGameByTimeout s0cars "p1" = .ok sTmo ∧ allCardIds sTmo = allCardIds s0cars) ∧
    (checkGameEndConditions dbCars s0cars = .ok sCgec ∧
      allCardIds sCgec = allCardIds s0cars) ∧
    (resolveRound dbPerm sResolveW = .ok sResolveWOut ∧
      allCardIds sResolveWOut + slotIds sResolveW.activeActionCardsOnBoard =
        allCardIds sResolveW) ∧
    (performPlay dbPermOnly sPermRes "p1" "i-a" { selectedMetric := some .speed } 1005 =
        .success sPermResOut ∧
      (allCardIds sPermResOut = allCardIds sPermRes ∨
        allCardIds sPermResOut + slotIds sPermRes.activeActionCardsOnBoard =
          allCardIds sPermRes) ∧
      ((allCardIds sPermRes).Nodup → (allCardIds sPermResOut).Nodup)) := by
  refine ⟨⟨rfl, C1_card_conservation_amended.1 s0cars none 2000 sAdv rfl⟩,
    ⟨rfl, C1_card_conservation_amended.2.1 s0cars "p1" sTmo rfl⟩,
    ⟨rfl, C1_card_conservation_amended.2.2.1 dbCars s0cars sCgec rfl⟩,
    ⟨rfl, ?_⟩, ⟨rfl, ?_, ?_⟩⟩
  · exact C1_card_conservation_amended.2.2.2.1 dbPerm sResolveW sResolveWOut
      { id := "p1", name := "P1", hand := [], score := 0 }
      { id := "p2", name := "P2", hand := [carInstA], score := 2 }
      _ _ MetricType.speed rfl (by decide) rfl rfl rfl
  · exact (C1_card_conservation_amended.2.2.2.2 dbPermOnly sPermRes "p1" "i-a"
      { selectedMetric := some .speed } 1005 sPermResOut
      { id := "p1", name := "P1", hand := [carInstA], score := 0 }
      { id := "p2", name := "P2", hand := [], score := 0 }
      none (some carInstC)
      { id := "p1", name := "P1", hand := [carInstA], score := 0 }
      { id := "p2", name := "P2", hand := [], score := 0 }
      0 carInstA carA
      rfl (by decide) rfl rfl rfl rfl rfl rfl rfl rfl
      (fun h => absurd h (by decide)) rfl).1
  · exact (C1_card_conservation_amended.2.2.2.2 dbPermOnly sPermRes "p1" "i-a"
      { selectedMetric := some .speed } 1005 sPermResOut
      { id := "p1", name := "P1", hand := [carInstA], score := 0 }
      { id := "p2", name := "P2", hand := [], score := 0 }
      none (some carInstC)
      { id := "p1", name := "P1", hand := [carInstA], score := 0 }
      { id := "p2", name := "P2", hand := [], score := 0 }
      0 carInstA carA
      rfl (by decide) rfl rfl rfl rfl rfl rfl rfl rfl
      (fun h => absurd h (by decide)) rfl).2
